import Mathlib

/-!
Verification of the simple_zpl2 ZPL II formatter (src/simple_zpl2/formatter.py).

The formatter accumulates an ordered list of text fragments (self.zpl) and
renders them by concatenation.  We embed each method as a function returning
a value of type ZRes Unit: the list of fragments the call appends to the
stream together with either success or a raised error message.  A raised
error keeps the fragments appended before the raise, exactly as the Python
object keeps earlier appends when an exception propagates.

Machine integers are modelled as Int (Python ints are unbounded, so no
wrap-around is involved); the one decimal-valued parameter is modelled as an
exact rational, with Python round(x, 1) modelled as round-half-even to
tenths.
-/

/-- Decimal digits of a natural number, most significant first, accumulated
onto acc; the first argument is fuel (structural recursion so that concrete
values reduce).  Models the digit characters produced by Python str(int). -/
def natDigitsGo : Nat → Nat → List Char → List Char
  | 0, _, acc => acc
  | _ + 1, 0, acc => acc
  | fuel + 1, n + 1, acc =>
    natDigitsGo fuel ((n + 1) / 10) (Char.ofNat (48 + (n + 1) % 10) :: acc)

/-- Decimal digits of a natural number, most significant first.  Fuel n is
enough because the value shrinks by a factor of ten at each step. -/
def natDigitsAux (n : Nat) (acc : List Char) : List Char := natDigitsGo n n acc

/-- Decimal string of a natural number, as Python str produces it. -/
def natStr (n : Nat) : String :=
  if n = 0 then "0" else String.mk (natDigitsAux n [])

/-- Decimal string of an integer, as Python str produces it. -/
def intStr (i : Int) : String :=
  if i < 0 then "-" ++ natStr i.natAbs else natStr i.natAbs

/-- Result of running one formatter call: the fragments it appended to
self.zpl, and either success with a value or a raised error message. -/
inductive ZRes (α : Type) : Type where
  | ok : List String → α → ZRes α
  | err : List String → String → ZRes α
deriving DecidableEq, Repr

/-- Prefix already-appended fragments onto a later result. -/
def ZRes.prepend (l : List String) : ZRes α → ZRes α
  | .ok l' a => .ok (l ++ l') a
  | .err l' e => .err (l ++ l') e

/-- Sequencing: run m, keep its fragments; if it raised, propagate; otherwise
continue with f on its value, accumulating fragments. -/
def ZRes.bind : ZRes α → (α → ZRes β) → ZRes β
  | .ok l a, f => (f a).prepend l
  | .err l e, _ => .err l e

/-- The empty, successful call: appends nothing. -/
def pureZ : ZRes Unit := .ok [] ()

/-- Append one fragment to the stream (self.zpl.append). -/
def emitZ (s : String) : ZRes Unit := .ok [s] ()

/-- Raise an exception without appending anything (raise ValueError). -/
def raiseZ (e : String) : ZRes Unit := .err [] e

/-- Run the first call, then (if it did not raise) the second. -/
def thenZ (m k : ZRes Unit) : ZRes Unit := ZRes.bind m fun _ => k

@[simp] theorem ZRes.prepend_ok (l l' : List String) (a : α) :
    ZRes.prepend l (.ok l' a) = .ok (l ++ l') a := rfl

@[simp] theorem ZRes.prepend_err (l l' : List String) (e : String) :
    ZRes.prepend l (.err l' e : ZRes α) = .err (l ++ l') e := rfl

@[simp] theorem ZRes.bind_ok (l : List String) (a : α) (f : α → ZRes β) :
    ZRes.bind (.ok l a) f = (f a).prepend l := rfl

@[simp] theorem ZRes.bind_err (l : List String) (e : String) (f : α → ZRes β) :
    ZRes.bind (.err l e : ZRes α) f = .err l e := rfl

@[simp] theorem thenZ_ok (l : List String) (k : ZRes Unit) :
    thenZ (.ok l ()) k = k.prepend l := rfl

@[simp] theorem thenZ_err (l : List String) (e : String) (k : ZRes Unit) :
    thenZ (.err l e) k = .err l e := rfl

@[simp] theorem thenZ_emit (s : String) (k : ZRes Unit) :
    thenZ (emitZ s) k = k.prepend [s] := rfl

@[simp] theorem thenZ_pureZ_left (k : ZRes Unit) : thenZ pureZ k = k := by
  cases k <;> rfl

/-- Python str of a list of strings, as used in error messages:
str(["A", "B"]) renders with single quotes and comma separators. -/
def pyStrList (vals : List String) : String :=
  "[" ++ String.intercalate ", " (vals.map fun v => "\x27" ++ v ++ "\x27") ++ "]"

/-! ## Field validators (formatter.py lines 70-148) -/

/-- Formatter._add_comma: append a comma fragment when requested. -/
def _add_comma (comma : Bool) : ZRes Unit :=
  if comma then emitZ "," else pureZ

/-- Formatter._add_int: append the decimal string of an integer. -/
def _add_int (value : Int) : ZRes Unit := emitZ (intStr value)

/-- Formatter._add_int_value_in_range: with reset_back the value is clamped
into the inclusive range; otherwise an out-of-range value raises; then the
separator (if requested) and the stringified value are appended. -/
def _add_int_value_in_range (value : Int) (field : String) (min_value max_value : Int)
    (comma : Bool) (reset_back : Bool) : ZRes Unit :=
  if reset_back then
    thenZ (_add_comma comma) (_add_int (max min_value (min max_value value)))
  else if min_value ≤ value ∧ value ≤ max_value then
    thenZ (_add_comma comma) (_add_int value)
  else
    raiseZ (field ++ " must be between " ++ intStr min_value ++ " and " ++
      intStr max_value ++ " (inclusive)")

/-- Formatter._add_value_in_list: the stringified value must be one of the
stringified allowed values; otherwise raise listing the allowed values. -/
def _add_value_in_list (value : String) (field : String) (valid_values : List String)
    (comma : Bool) : ZRes Unit :=
  if value ∈ valid_values then
    thenZ (_add_comma comma) (emitZ value)
  else
    raiseZ (field ++ " must be in " ++ pyStrList valid_values)

/-- Formatter._add_orientation. -/
def _add_orientation (orientation : String) (comma : Bool) : ZRes Unit :=
  _add_value_in_list orientation "orientation" ["N", "R", "I", "B"] comma

/-- Formatter._add_character_height. -/
def _add_character_height (character_height : Int) (comma : Bool) : ZRes Unit :=
  _add_int_value_in_range character_height "character_height" 10 32000 comma false

/-- Formatter._add_yes_no. -/
def _add_yes_no (value : String) (field : String) (comma : Bool) : ZRes Unit :=
  _add_value_in_list value field ["Y", "N"] comma

/-- Formatter._add_line_color. -/
def _add_line_color (color : String) (comma : Bool) : ZRes Unit :=
  _add_value_in_list color "color" ["B", "W"] comma

/-- Round-half-even to an integer, the rounding Python round uses. -/
def roundHalfEven (q : ℚ) : ℤ :=
  let f := ⌊q⌋
  let r := q - f
  if r < 1 / 2 then f
  else if 1 / 2 < r then f + 1
  else if f % 2 = 0 then f else f + 1

/-- String of a value rounded to one decimal place, modelling Python
str(round(value, 1)) for a float argument. -/
def decStr1 (q : ℚ) : String :=
  let n := roundHalfEven (10 * q)
  intStr (n / 10) ++ "." ++ natStr (n % 10).natAbs

/-- Formatter._add_decimal_value_in_range: out-of-range always raises; in
range, the separator and the value rounded to one decimal are appended.  The
bounds are integers at every call site. -/
def _add_decimal_value_in_range (value : ℚ) (field : String) (min_value max_value : Int)
    (comma : Bool) : ZRes Unit :=
  if (min_value : ℚ) ≤ value ∧ value ≤ (max_value : ℚ) then
    thenZ (_add_comma comma) (emitZ (decStr1 value))
  else
    raiseZ (field ++ " must be between " ++ intStr min_value ++ " and " ++
      intStr max_value ++ " by 0.1")

/-- Formatter._verify_legal_characters: every character of data must occur
in the allowed-character string. -/
def _verify_legal_characters (data characters : String) : ZRes Unit :=
  if data.toList.all (fun c => c ∈ characters.toList) then pureZ
  else raiseZ ("Illegal character found in data. Must contain only \"" ++ characters ++ "\"")

/-- Formatter._verify_data_numeric: Python str.isdigit, false on the empty
string, true when every character is a decimal digit. -/
def _verify_data_numeric (data : String) : ZRes Unit :=
  if data ≠ "" ∧ data.toList.all Char.isDigit then pureZ
  else raiseZ "Data must contain only digits."

/-- Formatter._verify_data_alphanumeric: Python str.isalnum, false on the
empty string, true when every character is a letter or digit. -/
def _verify_data_alphanumeric (data : String) : ZRes Unit :=
  if data ≠ "" ∧ data.toList.all Char.isAlphanum then pureZ
  else raiseZ "Data must contain only alphanumeric characters."

/-- The _newline_after decorator: run the method body, then (only when no
exception escaped it) append one newline fragment. -/
def _newline_after (m : ZRes Unit) : ZRes Unit := thenZ m (emitZ "\n")

/-! ## Command encoders -/

/-- Formatter.add_print_quantity, the Control Printing Quantity command
(opcode PQ, five optional parameters, halt on first unset parameter). -/
def add_print_quantity (quantity pause_and_cut_count replicates_of_serial : Option Int)
    (override_pause cut_on_error : Option String) : ZRes Unit :=
  _newline_after <|
    thenZ (emitZ "^PQ") <|
      match quantity with
      | none => pureZ
      | some q =>
        thenZ (_add_int_value_in_range q "quantity" 1 99999999 false false) <|
          match pause_and_cut_count with
          | none => pureZ
          | some p =>
            thenZ (_add_int_value_in_range p "pause_and_cut_count" 0 99999999 true false) <|
              match replicates_of_serial with
              | none => pureZ
              | some r =>
                thenZ (_add_int_value_in_range r "replicates_of_serial" 0 99999999 true false) <|
                  match override_pause with
                  | none => pureZ
                  | some ov =>
                    thenZ (_add_yes_no ov "override_pause" true) <|
                      match cut_on_error with
                      | none => pureZ
                      | some ce => _add_yes_no ce "cut_on_error" true

/-! ## Field data (formatter.py lines 296-316) -/

/-- Payload accepted by add_field_data: a single string, or a list or tuple
of strings (both Python sequence shapes collapse to a Lean list). -/
inductive FieldPayload : Type where
  | single : String → FieldPayload
  | multi : List String → FieldPayload
deriving DecidableEq

/-- Formatter._format_field_data on a string payload: replace each newline
with the backslash-ampersand escape when requested. -/
def _format_field_data (data : String) (replace_newlines : Bool) : String :=
  if replace_newlines then data.replace "\n" "\\&" else data

/-- Formatter.add_field_data: wrap the payload in a field-data block.  A
list or tuple payload is joined with the end-of-field marker.  The source
passes the whole list to _format_field_data, so when replace_newlines is
true Python calls list.replace, which does not exist, and an AttributeError
is raised before anything is appended. -/
def add_field_data (data_list : FieldPayload) (replace_newlines : Bool) : ZRes Unit :=
  _newline_after <|
    match data_list with
    | .multi l =>
      if replace_newlines then
        .err [] "AttributeError: \x27list\x27 object has no attribute \x27replace\x27"
      else
        emitZ ("^FD" ++ String.intercalate "^FS" l ++ "^FS")
    | .single s => emitZ ("^FD" ++ _format_field_data s replace_newlines ++ "^FS")

/-! ## Barcode data encoders -/

/-- Python s[:n], the first n characters of a string. -/
def pyTake (s : String) (n : Nat) : String := String.mk (s.toList.take n)

/-- Python str.zfill on a digit-only string: pad on the left with zeros up
to the requested width.  (The sign-handling branch of the Python builtin is
unreachable here: every call site has already verified the data to be
decimal digits.) -/
def pyZfill (s : String) (width : Nat) : String :=
  if width ≤ s.length then s else String.mk (List.replicate (width - s.length) '0') ++ s

/-- Formatter.add_field_data_code_11. -/
def add_field_data_code_11 (data : String) : ZRes Unit :=
  thenZ (_verify_legal_characters data "0123456789-") (add_field_data (.single data) false)

/-- Formatter.add_field_data_interleaved_2_of_5. -/
def add_field_data_interleaved_2_of_5 (data : String) : ZRes Unit :=
  thenZ (_verify_data_numeric data) (add_field_data (.single data) false)

/-- Formatter.add_field_data_code_39: the extended-ASCII mode is declared
but unimplemented and raises NotImplementedError. -/
def add_field_data_code_39 (data : String) (extended_ascii : Bool) : ZRes Unit :=
  if extended_ascii then .err [] "NotImplementedError"
  else
    thenZ (_verify_legal_characters data "01234567890ABCDEFGHIJKLMNOPQRSTUVWXYZ-.$/+% ")
      (add_field_data (.single data) false)

/-- Formatter.add_field_data_planet_code. -/
def add_field_data_planet_code (data : String) : ZRes Unit :=
  thenZ (_verify_data_numeric data) (add_field_data (.single data) false)

/-- Formatter.add_field_data_ean_8. -/
def add_field_data_ean_8 (data : String) : ZRes Unit :=
  thenZ (_verify_data_numeric data) (add_field_data (.single data) false)

/-- Formatter.add_field_data_upc_e. -/
def add_field_data_upc_e (data : String) : ZRes Unit :=
  thenZ (_verify_data_numeric data) (add_field_data (.single data) false)

/-- Formatter.add_field_data_code_93: the extended-ASCII mode is declared
but unimplemented and raises NotImplementedError. -/
def add_field_data_code_93 (data : String) (extended_ascii : Bool) : ZRes Unit :=
  if extended_ascii then .err [] "NotImplementedError"
  else
    thenZ (_verify_legal_characters data "01234567890ABCDEFGHIJKLMNOPQRSTUVWXYZ-.$/+%&,() ")
      (add_field_data (.single data) false)

/-- Formatter.add_field_data_ean_13: verify digits, truncate to the first
12 characters when longer, then zero-pad on the left out to 12. -/
def add_field_data_ean_13 (data : String) : ZRes Unit :=
  thenZ (_verify_data_numeric data) <|
    add_field_data
      (.single (pyZfill (if 12 < data.length then pyTake data 12 else data) 12)) false

/-- Formatter.add_field_data_industrial_2_of_5. -/
def add_field_data_industrial_2_of_5 (data : String) : ZRes Unit :=
  thenZ (_verify_data_numeric data) (add_field_data (.single data) false)

/-- Formatter.add_field_data_standard_2_of_5. -/
def add_field_data_standard_2_of_5 (data : String) : ZRes Unit :=
  thenZ (_verify_data_numeric data) (add_field_data (.single data) false)

/-- Formatter.add_field_data_ansi_codabar: the source computes an allowed
set from the start and stop characters but then validates against the fixed
literal set, so the start_char and stop_char arguments have no effect. -/
def add_field_data_ansi_codabar (data : String) (start_char stop_char : Option String) :
    ZRes Unit :=
  thenZ (_verify_legal_characters data "0123456789-:.$/+") (add_field_data (.single data) false)

/-- Formatter.add_field_data_logmars: a special case of Code 39. -/
def add_field_data_logmars (data : String) : ZRes Unit :=
  add_field_data_code_39 data false

/-- Formatter.add_field_data_msi: the maximum payload length is 13 when the
check-digit mode is B, C or D and 14 otherwise; the length check runs
before the digits check. -/
def add_field_data_msi (data : String) (check_digit : Option String) : ZRes Unit :=
  if (if check_digit = some "B" ∨ check_digit = some "C" ∨ check_digit = some "D"
        then (13 : Nat) else 14) < data.length then
    .err [] "msi barcode data has maximum len of 13 for check_digit B,C,D or 14 for check_digit A."
  else
    thenZ (_verify_data_numeric data) (add_field_data (.single data) false)

/-- Formatter.add_field_data_plessey. -/
def add_field_data_plessey (data : String) : ZRes Unit :=
  thenZ (_verify_legal_characters data "0123456789ABCDEF") (add_field_data (.single data) false)

/-- Formatter.add_field_data_upc_ean_extensions. -/
def add_field_data_upc_ean_extensions (data : String) : ZRes Unit :=
  if ¬(data.length = 2 ∨ data.length = 5) then
    .err [] "UPC/EAN Extension barcode is limited to 2 or 5 digits only."
  else
    thenZ (_verify_data_numeric data) (add_field_data (.single data) false)

/-- Tail of Formatter.add_field_data_tlc39 once the additional data has been
joined: the joined string is bounded by 139 characters, must be
alphanumeric, and is then emitted as the third comma-separated component. -/
def tlc39_joined (eci_number serial_number ad_joined : String) : ZRes Unit :=
  if 139 < ad_joined.length then
    .err [] ("additional_data is limited to 139 characters after joining with commas." ++
      "Data sent length is " ++ natStr ad_joined.length)
  else if ¬(ad_joined ≠ "" ∧ ad_joined.toList.all Char.isAlphanum) then
    .err [] "additional_data must be alphanumeric."
  else
    add_field_data (.single (eci_number ++ "," ++ serial_number ++ "," ++ ad_joined)) false

/-- Formatter.add_field_data_tlc39: an exactly-6-digit eci_number, an
optional 1-26 character alphanumeric serial number, and optional additional
data (single string bounded by 25 characters, or a list whose blocks the
source rejects already at exactly 25 characters with the check len >= 25).
This method carries the _newline_after decorator and also calls the
decorated add_field_data, so a successful call appends two newline
fragments. -/
def add_field_data_tlc39 (eci_number : String) (serial_number : Option String)
    (additional_data : Option FieldPayload) : ZRes Unit :=
  _newline_after <|
    if ¬(eci_number.length = 6 ∧ eci_number.toList.all Char.isDigit) then
      .err [] "eci_number must be exactly 6 digital"
    else
      match serial_number with
      | none => add_field_data (.single eci_number) false
      | some sn =>
        if ¬(1 ≤ sn.length ∧ sn.length ≤ 26 ∧ sn.toList.all Char.isAlphanum) then
          .err [] "serial_number must be alphanumeric between 1 and 26 characters."
        else
          match additional_data with
          | none => add_field_data (.single (eci_number ++ "," ++ sn)) false
          | some (.multi l) =>
            if l.any (fun ad => 25 ≤ ad.length) then
              .err [] "additional_data blocks are limited to 25 characters."
            else
              tlc39_joined eci_number sn (String.intercalate "," l)
          | some (.single s) =>
            if 25 < s.length then
              .err [] "additional_data blocks are limited to 25 characters."
            else
              tlc39_joined eci_number sn s

/-- Formatter.add_field_data_upc_a: verify digits, zero-pad on the left to
11 when shorter, and truncate to the first 11 characters. -/
def add_field_data_upc_a (data : String) : ZRes Unit :=
  thenZ (_verify_data_numeric data) <|
    add_field_data
      (.single (pyTake (if data.length < 11 then pyZfill data 11 else data) 11)) false

/-- Formatter.add_field_data_postal. -/
def add_field_data_postal (data : String) : ZRes Unit :=
  thenZ (_verify_data_numeric data) (add_field_data (.single data) false)

/-! ## Command encoders (text, position, barcodes, graphics) -/

/-- Formatter.add_font (opcode A): font name is appended unvalidated, then
orientation, character height and width under the sequential-optional
protocol; a zero width is skipped by Python truthiness rather than halting. -/
def add_font (font_name : String) (orientation : Option String)
    (character_height width : Option Int) : ZRes Unit :=
  _newline_after <|
    thenZ (emitZ "^A") <| thenZ (emitZ font_name) <|
      match orientation with
      | none => pureZ
      | some o =>
        thenZ (_add_orientation o true) <|
          match character_height with
          | none => pureZ
          | some ch =>
            thenZ (_add_int_value_in_range ch "character_height" 10 32000 true false) <|
              match width with
              | none => pureZ
              | some w =>
                if w = 0 then pureZ
                else _add_int_value_in_range w "width" 10 32000 true false

/-- Formatter.add_label_home (opcode LH). -/
def add_label_home (x_pos y_pos : Option Int) : ZRes Unit :=
  _newline_after <|
    thenZ (emitZ "^LH") <|
      match x_pos with
      | none => pureZ
      | some x =>
        thenZ (_add_int_value_in_range x "x_pos" 0 32000 false false) <|
          match y_pos with
          | none => pureZ
          | some y => _add_int_value_in_range y "y_pos" 0 32000 true false

/-- Formatter.add_field_origin (opcode FO). -/
def add_field_origin (x_pos y_pos justification : Option Int) : ZRes Unit :=
  _newline_after <|
    thenZ (emitZ "^FO") <|
      match x_pos with
      | none => pureZ
      | some x =>
        thenZ (_add_int_value_in_range x "x_pos" 0 32000 false false) <|
          match y_pos with
          | none => pureZ
          | some y =>
            thenZ (_add_int_value_in_range y "y_pos" 0 32000 true false) <|
              match justification with
              | none => pureZ
              | some j => _add_value_in_list (intStr j) "justification" ["0", "1", "2"] true

/-- Formatter.add_field_block (opcode FB): width is appended with no range
check and no separator. -/
def add_field_block (width max_lines dots_between_lines : Option Int)
    (text_justification : Option String) (hanging_indent : Option Int) : ZRes Unit :=
  _newline_after <|
    thenZ (emitZ "^FB") <|
      match width with
      | none => pureZ
      | some w =>
        thenZ (_add_int w) <|
          match max_lines with
          | none => pureZ
          | some ml =>
            thenZ (_add_int_value_in_range ml "max_lines" 1 9999 true false) <|
              match dots_between_lines with
              | none => pureZ
              | some dbl =>
                thenZ (_add_int_value_in_range dbl "dots_between_lines" (-9999) 9999 true false) <|
                  match text_justification with
                  | none => pureZ
                  | some tj =>
                    thenZ (_add_value_in_list tj "text_justification" ["L", "C", "R", "J"] true) <|
                      match hanging_indent with
                      | none => pureZ
                      | some hi => _add_int_value_in_range hi "hanging_indent" 0 9999 true false

/-- Formatter._add_standard_1d_barcode: the shared emitter for the common
1D barcode parameters.  check_digit_one is skipped silently when unset or
empty (Python truthiness) instead of halting the chain. -/
def _add_standard_1d_barcode (zpl_code : String) (orientation check_digit_one : Option String)
    (height : Option Int) (print_text text_above check_digit_two : Option String) : ZRes Unit :=
  thenZ (emitZ ("^" ++ zpl_code)) <|
    match orientation with
    | none => pureZ
    | some o =>
      thenZ (_add_orientation o false) <|
        thenZ (match check_digit_one with
               | none => pureZ
               | some cd => if cd = "" then pureZ else _add_yes_no cd "check_digit" true) <|
          match height with
          | none => pureZ
          | some h =>
            thenZ (_add_int_value_in_range h "height" 1 32000 true false) <|
              match print_text with
              | none => pureZ
              | some pt =>
                thenZ (_add_yes_no pt "print_text" true) <|
                  match text_above with
                  | none => pureZ
                  | some ta =>
                    thenZ (_add_yes_no ta "text_above" true) <|
                      match check_digit_two with
                      | none => pureZ
                      | some cd2 => _add_yes_no cd2 "check_digit" true

/-- Formatter.add_barcode_code_11 (opcode B1). -/
def add_barcode_code_11 (orientation check_digit : Option String) (height : Option Int)
    (print_text text_above : Option String) : ZRes Unit :=
  _newline_after
    (_add_standard_1d_barcode "B1" orientation check_digit height print_text text_above none)

/-- Formatter.add_barcode_interleaved_2_of_5 (opcode B2). -/
def add_barcode_interleaved_2_of_5 (orientation : Option String) (height : Option Int)
    (print_text text_above check_digit : Option String) : ZRes Unit :=
  _newline_after
    (_add_standard_1d_barcode "B2" orientation none height print_text text_above check_digit)

/-- Formatter.add_barcode_code_39 (opcode B3). -/
def add_barcode_code_39 (orientation check_digit : Option String) (height : Option Int)
    (print_text text_above : Option String) : ZRes Unit :=
  _newline_after
    (_add_standard_1d_barcode "B3" orientation check_digit height print_text text_above none)

/-- Formatter.add_barcode_planet_code (opcode B5). -/
def add_barcode_planet_code (orientation : Option String) (height : Option Int)
    (print_text text_above : Option String) : ZRes Unit :=
  _newline_after
    (_add_standard_1d_barcode "B5" orientation none height print_text text_above none)

/-- Formatter.add_barcode_ean_8 (opcode B8). -/
def add_barcode_ean_8 (orientation : Option String) (height : Option Int)
    (print_text text_above : Option String) : ZRes Unit :=
  _newline_after
    (_add_standard_1d_barcode "B8" orientation none height print_text text_above none)

/-- Formatter.add_barcode_upc_e (opcode B9). -/
def add_barcode_upc_e (orientation : Option String) (height : Option Int)
    (print_text text_above check_digit : Option String) : ZRes Unit :=
  _newline_after
    (_add_standard_1d_barcode "B9" orientation none height print_text text_above check_digit)

/-- Formatter.add_barcode_code_93 (opcode BA). -/
def add_barcode_code_93 (orientation : Option String) (height : Option Int)
    (print_text text_above check_digit : Option String) : ZRes Unit :=
  _newline_after
    (_add_standard_1d_barcode "BA" orientation none height print_text text_above check_digit)

/-- Formatter.add_barcode_code_128 (opcode BC). -/
def add_barcode_code_128 (orientation : Option String) (height : Option Int)
    (print_text text_above check_digit : Option String) : ZRes Unit :=
  _newline_after
    (_add_standard_1d_barcode "BC" orientation none height print_text text_above check_digit)

/-- Formatter.add_barcode_ean_13 (opcode BE). -/
def add_barcode_ean_13 (orientation : Option String) (height : Option Int)
    (print_text text_above : Option String) : ZRes Unit :=
  _newline_after
    (_add_standard_1d_barcode "BE" orientation none height print_text text_above none)

/-- Formatter.add_barcode_upc_ean_extensions (opcode BS). -/
def add_barcode_upc_ean_extensions (orientation : Option String) (height : Option Int)
    (print_text text_above : Option String) : ZRes Unit :=
  _newline_after
    (_add_standard_1d_barcode "BS" orientation none height print_text text_above none)

/-- Formatter.add_barcode_upc_a (opcode BU). -/
def add_barcode_upc_a (orientation : Option String) (height : Option Int)
    (print_text text_above check_digit : Option String) : ZRes Unit :=
  _newline_after
    (_add_standard_1d_barcode "BU" orientation none height print_text text_above check_digit)

/-- Formatter.add_barcode_postal (opcode BZ). -/
def add_barcode_postal (orientation : Option String) (height : Option Int)
    (print_text text_above : Option String) (code_type : Option Int) : ZRes Unit :=
  _newline_after <|
    thenZ (_add_standard_1d_barcode "BZ" orientation none height print_text text_above none) <|
      match code_type with
      | none => pureZ
      | some ct => _add_int_value_in_range ct "code_type" 0 3 true false

/-- Formatter.add_barcode_logmars: the source emits opcode BJ here. -/
def add_barcode_logmars (orientation : Option String) (height : Option Int)
    (text_above : Option String) : ZRes Unit :=
  _newline_after <|
    thenZ (_add_standard_1d_barcode "BJ" orientation none height none none none) <|
      match text_above with
      | none => pureZ
      | some ta => _add_yes_no ta "text_above" true

/-- Formatter.add_barcode_standard_2_of_5 (opcode BJ). -/
def add_barcode_standard_2_of_5 (orientation : Option String) (height : Option Int)
    (print_text text_above : Option String) : ZRes Unit :=
  _newline_after
    (_add_standard_1d_barcode "BJ" orientation none height print_text text_above none)

/-- Formatter.add_barcode_plessey (opcode BP). -/
def add_barcode_plessey (orientation check_digit : Option String) (height : Option Int)
    (print_text text_above : Option String) : ZRes Unit :=
  _newline_after
    (_add_standard_1d_barcode "BP" orientation check_digit height print_text text_above none)

/-- Formatter.add_barcode_industrial_2_of_5: the source passes its
arguments positionally shifted into _add_standard_1d_barcode, so height
lands in the check-digit slot (a nonzero height is validated as a yes/no
flag and rejected) and print_text lands in the integer height slot, where
the ordered comparison of int and str raises TypeError; the remaining
arguments are never reached. -/
def add_barcode_industrial_2_of_5 (orientation : Option String) (height : Option Int)
    (print_text text_above : Option String) : ZRes Unit :=
  _newline_after <|
    thenZ (emitZ "^BI") <|
      match orientation with
      | none => pureZ
      | some o =>
        thenZ (_add_orientation o false) <|
          thenZ (match height with
                 | none => pureZ
                 | some h => if h = 0 then pureZ else _add_yes_no (intStr h) "check_digit" true) <|
            match print_text with
            | none => pureZ
            | some _ =>
              raiseZ "TypeError: \x27<=\x27 not supported between instances of \x27int\x27 and \x27str\x27"

/-- Formatter.add_barcode_ansi_codabar (opcode BK): the check-digit slot of
the shared emitter is filled with the constant N. -/
def add_barcode_ansi_codabar (orientation : Option String) (height : Option Int)
    (print_text text_above start_character stop_character : Option String) : ZRes Unit :=
  _newline_after <|
    thenZ (_add_standard_1d_barcode "BK" orientation (some "N") height print_text text_above none) <|
      match start_character with
      | none => pureZ
      | some sc =>
        thenZ (_add_value_in_list sc "start_character" ["A", "B", "C", "D"] true) <|
          match stop_character with
          | none => pureZ
          | some tc => _add_value_in_list tc "stop_character" ["A", "B", "C", "D"] true

/-- Formatter.add_barcode_msi (opcode BM): the allowed check-digit set in
the source is the tuple A, B, C-comma, D — the third member carries a stray
comma. -/
def add_barcode_msi (orientation check_digit : Option String) (height : Option Int)
    (print_text text_above insert_check_digit : Option String) : ZRes Unit :=
  _newline_after <|
    thenZ (emitZ "^BM") <|
      match orientation with
      | none => pureZ
      | some o =>
        thenZ (_add_orientation o false) <|
          match check_digit with
          | none => pureZ
          | some cd =>
            thenZ (_add_value_in_list cd "check_digit" ["A", "B", "C,", "D"] true) <|
              match height with
              | none => pureZ
              | some h =>
                thenZ (_add_int_value_in_range h "height" 1 32000 true false) <|
                  match print_text with
                  | none => pureZ
                  | some pt =>
                    thenZ (_add_yes_no pt "print_text" true) <|
                      match text_above with
                      | none => pureZ
                      | some ta =>
                        thenZ (_add_yes_no ta "text_above" true) <|
                          match insert_check_digit with
                          | none => pureZ
                          | some icd => _add_yes_no icd "insert_check_digit" true

/-- Formatter.add_barcode_aztec (opcode B0). -/
def add_barcode_aztec (orientation : Option String) (magnification : Option Int)
    (ecic : Option String) (ec_symbol_size : Option Int) (menu_symbol : Option String)
    (number_of_symbols : Option Int) (structured_id_append : Option String) : ZRes Unit :=
  _newline_after <|
    thenZ (emitZ "^B0") <|
      match orientation with
      | none => pureZ
      | some o =>
        thenZ (_add_orientation o false) <|
          match magnification with
          | none => pureZ
          | some m =>
            thenZ (_add_int_value_in_range m "magnification" 1 10 true false) <|
              match ecic with
              | none => pureZ
              | some e =>
                thenZ (_add_yes_no e "ecic" true) <|
                  match ec_symbol_size with
                  | none => pureZ
                  | some ec =>
                    if ¬(0 ≤ ec ∧ ec ≤ 99 ∨ 101 ≤ ec ∧ ec ≤ 104 ∨
                         201 ≤ ec ∧ ec ≤ 232 ∨ ec = 300) then
                      raiseZ "ec_symbol_size must be 0, 1-99, 101-104, 201-232, or 300."
                    else
                      thenZ (thenZ (_add_comma true)
                          (emitZ (if 1 ≤ ec ∧ ec ≤ 9 then "0" ++ intStr ec else intStr ec))) <|
                        match menu_symbol with
                        | none => pureZ
                        | some ms =>
                          thenZ (_add_yes_no ms "menu_symbol" true) <|
                            match number_of_symbols with
                            | none => pureZ
                            | some ns =>
                              thenZ (_add_int_value_in_range ns "number_of_symbols" 1 26 true false) <|
                                match structured_id_append with
                                | none => pureZ
                                | some sia =>
                                  if 24 < sia.length then
                                    raiseZ "structured_id_append length maximum is 24."
                                  else thenZ (_add_comma true) (emitZ sia)

/-- Formatter.add_barcode_code_49 (opcode B4): print_text and text_above
are translated into a single interpretation-line token. -/
def add_barcode_code_49 (orientation : Option String) (height_multiplier : Option Int)
    (print_text text_above starting_mode : Option String) : ZRes Unit :=
  _newline_after <|
    thenZ (emitZ "^B4") <|
      match orientation with
      | none => pureZ
      | some o =>
        thenZ (_add_orientation o false) <|
          match height_multiplier with
          | none => pureZ
          | some hm =>
            thenZ (_add_int hm) <|
              match print_text with
              | none => pureZ
              | some pt =>
                if ¬(pt = "Y" ∨ pt = "N") then
                  raiseZ "print_text should be Y or N"
                else if ¬(text_above = none ∨ text_above = some "Y" ∨ text_above = some "N") then
                  raiseZ "text_above should be Y or N"
                else
                  thenZ (thenZ (_add_comma true)
                      (emitZ (if pt = "Y" then (if text_above = some "Y" then "A" else "B")
                              else "N"))) <|
                    match starting_mode with
                    | none => pureZ
                    | some sm =>
                      _add_value_in_list sm "starting_mode" ["0", "1", "2", "3", "4", "5", "A"] true

/-- Formatter.add_barcode_pdf417 (opcode B7): height is appended with no
range check. -/
def add_barcode_pdf417 (orientation : Option String) (height security_level
    data_column_count row_count : Option Int) (truncate : Option String) : ZRes Unit :=
  _newline_after <|
    thenZ (emitZ "^B7") <|
      match orientation with
      | none => pureZ
      | some o =>
        thenZ (_add_orientation o false) <|
          match height with
          | none => pureZ
          | some h =>
            thenZ (_add_int h) <|
              match security_level with
              | none => pureZ
              | some sl =>
                thenZ (_add_int_value_in_range sl "security_level" 0 8 true false) <|
                  match data_column_count with
                  | none => pureZ
                  | some dcc =>
                    thenZ (_add_int_value_in_range dcc "data_column_count" 1 30 true false) <|
                      match row_count with
                      | none => pureZ
                      | some rc =>
                        thenZ (_add_int_value_in_range rc "row_count" 3 90 true false) <|
                          match truncate with
                          | none => pureZ
                          | some t => _add_yes_no t "truncate" true

/-- Formatter.add_barcode_ups_maxicode (opcode BD). -/
def add_barcode_ups_maxicode (mode symbol_number symbol_count : Option Int) : ZRes Unit :=
  _newline_after <|
    thenZ (emitZ "^BD") <|
      match mode with
      | none => pureZ
      | some m =>
        thenZ (_add_int_value_in_range m "mode" 2 6 false false) <|
          match symbol_number with
          | none => pureZ
          | some sn =>
            thenZ (_add_int_value_in_range sn "symbol_number" 1 8 true false) <|
              match symbol_count with
              | none => pureZ
              | some sc => _add_int_value_in_range sc "symbol_count" 1 8 true false

/-- Formatter.add_barcode_codablock (opcode BB): the mode parameter
defaults to F; for an unrecognised mode the row count is skipped silently
and the mode check then raises. -/
def add_barcode_codablock (orientation : Option String) (height : Option Int)
    (security_level : Option String) (characters_per_row row_count : Option Int)
    (mode : String := "F") : ZRes Unit :=
  _newline_after <|
    thenZ (emitZ "^BB") <|
      match orientation with
      | none => pureZ
      | some o =>
        thenZ (_add_orientation o false) <|
          match height with
          | none => pureZ
          | some h =>
            thenZ (_add_int_value_in_range h "height" 2 32000 true false) <|
              match security_level with
              | none => pureZ
              | some sl =>
                thenZ (_add_yes_no sl "security_level" true) <|
                  match characters_per_row with
                  | none => pureZ
                  | some cpr =>
                    thenZ (_add_int_value_in_range cpr "characters_per_row" 2 62 true false) <|
                      match row_count with
                      | none => pureZ
                      | some rc =>
                        thenZ (if mode = "E" ∨ mode = "F" then
                                 _add_int_value_in_range rc "row_count for type E and F" 2 4 true false
                               else if mode = "A" then
                                 _add_int_value_in_range rc "row_count for type A" 1 22 true false
                               else pureZ) <|
                          _add_value_in_list mode "mode" ["A", "E", "F"] true

/-- Formatter.add_barcode_micropdf_417 (opcode BF). -/
def add_barcode_micropdf_417 (orientation : Option String) (height mode : Option Int) :
    ZRes Unit :=
  _newline_after <|
    thenZ (emitZ "^BF") <|
      match orientation with
      | none => pureZ
      | some o =>
        thenZ (_add_orientation o false) <|
          match height with
          | none => pureZ
          | some h =>
            thenZ (_add_int_value_in_range h "height" 1 9999 true false) <|
              match mode with
              | none => pureZ
              | some m => _add_int_value_in_range m "mode" 0 33 true false

/-- Formatter.add_barcode_qr: the source emits the fixed opcode BQN. -/
def add_barcode_qr (model magnification : Option Int) (error_correction : Option String)
    (mask_value : Option Int) : ZRes Unit :=
  _newline_after <|
    thenZ (emitZ "^BQN") <|
      match model with
      | none => pureZ
      | some m =>
        thenZ (_add_value_in_list (intStr m) "model" ["1", "2"] true) <|
          match magnification with
          | none => pureZ
          | some mg =>
            thenZ (_add_int_value_in_range mg "magnification" 1 10 true false) <|
              match error_correction with
              | none => pureZ
              | some ecc =>
                thenZ (_add_value_in_list ecc "error_correction" ["H", "Q", "M", "L"] true) <|
                  match mask_value with
                  | none => pureZ
                  | some mv => _add_int_value_in_range mv "mask_value" 0 7 true false

/-- Formatter.add_barcode_gs1_batabar (opcode BR): width is emitted only
for symbology type 6, must be even, and otherwise is skipped silently. -/
def add_barcode_gs1_batabar (orientation : Option String)
    (symbology_type magnification separator_height height width : Option Int) : ZRes Unit :=
  _newline_after <|
    thenZ (emitZ "^BR") <|
      match orientation with
      | none => pureZ
      | some o =>
        thenZ (_add_orientation o false) <|
          match symbology_type with
          | none => pureZ
          | some st =>
            thenZ (_add_int_value_in_range st "symbology_type" 1 12 true false) <|
              match magnification with
              | none => pureZ
              | some mg =>
                thenZ (_add_int_value_in_range mg "magnification" 1 10 true false) <|
                  match separator_height with
                  | none => pureZ
                  | some sh =>
                    thenZ (_add_value_in_list (intStr sh) "separator_height" ["1", "2"] true) <|
                      match height with
                      | none => pureZ
                      | some h =>
                        thenZ (_add_int_value_in_range h "height" 1 32000 true false) <|
                          match width with
                          | none => pureZ
                          | some w =>
                            if st ≠ 6 then pureZ
                            else if w % 2 = 1 then raiseZ "width must be even."
                            else _add_int_value_in_range w "width" 2 22 true false

/-- Formatter.add_barcode_data_matrix (opcode BX): the column count must be
even for quality 200 and odd for the other qualities; the escape sequence
must be a single character and is appended unvalidated otherwise. -/
def add_barcode_data_matrix (orientation : Option String) (height quality columns rows
    format_id : Option Int) (escape_sequence : Option String) (aspect_ratio : Option Int) :
    ZRes Unit :=
  _newline_after <|
    thenZ (emitZ "^BX") <|
      match orientation with
      | none => pureZ
      | some o =>
        thenZ (_add_orientation o false) <|
          match height with
          | none => pureZ
          | some h =>
            thenZ (_add_int_value_in_range h "height" 1 32000 true false) <|
              match quality with
              | none => pureZ
              | some q =>
                thenZ (_add_value_in_list (intStr q) "quality"
                    ["0", "50", "80", "100", "140", "200"] true) <|
                  match columns with
                  | none => pureZ
                  | some c =>
                    thenZ (if q = 200 then
                             if c % 2 = 1 then
                               raiseZ "columns must be even for quality of 200."
                             else _add_int_value_in_range c "columns" 9 49 true false
                           else
                             if c % 2 = 0 then
                               raiseZ "columns must be odd for quality of (0, 50, 80, 100, 140)."
                             else _add_int_value_in_range c "columns" 9 49 true false) <|
                      match rows with
                      | none => pureZ
                      | some r =>
                        thenZ (_add_int_value_in_range r "rows" 9 49 true false) <|
                          match format_id with
                          | none => pureZ
                          | some fid =>
                            thenZ (_add_int_value_in_range fid "format_id" 1 6 true false) <|
                              match escape_sequence with
                              | none => pureZ
                              | some es =>
                                if es.length ≠ 1 then
                                  raiseZ "escape_sequence must be a single character."
                                else
                                  thenZ (thenZ (_add_comma true) (emitZ es)) <|
                                    match aspect_ratio with
                                    | none => pureZ
                                    | some ar =>
                                      _add_int_value_in_range ar "aspect_ratio" 1 2 true false

/-- Formatter.add_barcode_tlc39 (opcode BT). -/
def add_barcode_tlc39 (orientation : Option String) (code_39_width : Option Int)
    (code_39_ratio : Option ℚ) (code_39_height micropdf417_height micropdf417_width :
    Option Int) : ZRes Unit :=
  _newline_after <|
    thenZ (emitZ "^BT") <|
      match orientation with
      | none => pureZ
      | some o =>
        thenZ (_add_orientation o false) <|
          match code_39_width with
          | none => pureZ
          | some w =>
            thenZ (_add_int_value_in_range w "code_39_width" 1 10 true false) <|
              match code_39_ratio with
              | none => pureZ
              | some r =>
                thenZ (_add_decimal_value_in_range r "code_39_ratio" 2 3 true) <|
                  match code_39_height with
                  | none => pureZ
                  | some h =>
                    thenZ (_add_int_value_in_range h "code_39_height" 1 9999 true false) <|
                      match micropdf417_height with
                      | none => pureZ
                      | some mh =>
                        thenZ (_add_int_value_in_range mh "micropdf417_height" 1 255 true false) <|
                          match micropdf417_width with
                          | none => pureZ
                          | some mw =>
                            _add_int_value_in_range mw "micropdf417_width" 1 10 true false

/-- Formatter.add_barcode_default (opcode BY): after the wide-narrow ratio
the source re-tests module_width, which is already known to be set, and
appends it a second time before the height. -/
def add_barcode_default (module_width : Option Int) (wide_narrow_ratio : Option ℚ)
    (height : Option Int) : ZRes Unit :=
  _newline_after <|
    thenZ (emitZ "^BY") <|
      match module_width with
      | none => pureZ
      | some mw =>
        thenZ (_add_int_value_in_range mw "module_width" 1 10 false false) <|
          match wide_narrow_ratio with
          | none => pureZ
          | some r =>
            thenZ (_add_decimal_value_in_range r "wide_narrow_ratio" 2 3 true) <|
              thenZ (_add_int_value_in_range mw "module_width" 1 10 true false) <|
                match height with
                | none => pureZ
                | some h => _add_int_value_in_range h "height" 1 200 true false

/-- Formatter.add_comment (opcode FX). -/
def add_comment (comment_text : String) : ZRes Unit :=
  _newline_after (emitZ ("^FX" ++ comment_text ++ "^FS"))

/-- Formatter.add_graphic_box (opcode GB): the lower bound for width and
height is the border when one was supplied and nonzero, else 1. -/
def add_graphic_box (width height border : Option Int) (line_color : Option String)
    (corner_rounding : Option Int) : ZRes Unit :=
  _newline_after <|
    thenZ (emitZ "^GB") <|
      let use_border : Int := match border with
        | some b => if b = 0 then 1 else b
        | none => 1
      match width with
      | none => pureZ
      | some w =>
        thenZ (_add_int_value_in_range w "width" use_border 32000 false false) <|
          match height with
          | none => pureZ
          | some h =>
            thenZ (_add_int_value_in_range h "height" use_border 32000 true false) <|
              match border with
              | none => pureZ
              | some b =>
                thenZ (_add_int_value_in_range b "border" 1 32000 true false) <|
                  match line_color with
                  | none => pureZ
                  | some lc =>
                    thenZ (_add_line_color lc true) <|
                      match corner_rounding with
                      | none => pureZ
                      | some cr => _add_int_value_in_range cr "corner_rounding" 0 8 true false

/-- Formatter.add_graphic_circle (opcode GC): diameter and border are
clamped into range (reset_back), never rejected. -/
def add_graphic_circle (diameter border : Option Int) (color : Option String) : ZRes Unit :=
  _newline_after <|
    thenZ (emitZ "^GC") <|
      match diameter with
      | none => pureZ
      | some d =>
        thenZ (_add_int_value_in_range d "diameter" 3 4095 false true) <|
          match border with
          | none => pureZ
          | some b =>
            thenZ (_add_int_value_in_range b "border" 1 4095 true true) <|
              match color with
              | none => pureZ
              | some c => _add_line_color c true

/-! ## Document renderer (formatter.py lines 39-68 and 1709-1729) -/

/-- The document-start sentinel, Formatter.START. -/
def START : String := "^XA"

/-- The document-end sentinel, Formatter.END. -/
def END : String := "^XZ"

/-- The stream of a freshly constructed Formatter: the start sentinel and
one newline, appended by the constructor. -/
def initZpl : List String := [START, "\n"]

/-- Formatter.zpl_text: concatenation of the stream with the end sentinel
appended to the rendered output only, never stored in the stream. -/
def zpl_text (zpl : List String) : String := String.join (zpl ++ [END])

/-- Formatter.zpl_bytes: the UTF-8 encoding of the text rendering. -/
def zpl_bytes (zpl : List String) : ByteArray := (zpl_text zpl).toUTF8

/-! ## Basic facts about the decimal printers -/

theorem ofNat_digitChar_isDigit (d : Nat) (hd : d < 10) : (Char.ofNat (48 + d)).isDigit := by
  interval_cases d <;> decide

theorem mem_natDigitsGo (c : Char) (fuel : Nat) :
    ∀ n acc, c ∈ natDigitsGo fuel n acc → c ∈ acc ∨ c.isDigit = true := by
  induction fuel with
  | zero =>
    intro n acc h
    exact Or.inl h
  | succ fuel ih =>
    intro n acc h
    cases n with
    | zero => exact Or.inl h
    | succ m =>
      simp only [natDigitsGo] at h
      rcases ih ((m + 1) / 10) _ h with h1 | h2
      · rcases List.mem_cons.mp h1 with h3 | h4
        · exact Or.inr (h3 ▸ ofNat_digitChar_isDigit _ (Nat.mod_lt _ (by omega)))
        · exact Or.inl h4
      · exact Or.inr h2

theorem length_le_natDigitsGo (fuel : Nat) :
    ∀ n acc, acc.length ≤ (natDigitsGo fuel n acc).length := by
  induction fuel with
  | zero => intro n acc; simp [natDigitsGo]
  | succ fuel ih =>
    intro n acc
    cases n with
    | zero => simp [natDigitsGo]
    | succ m =>
      simp only [natDigitsGo]
      exact le_trans (by simp) (ih ((m + 1) / 10) _)

theorem natStr_ne_newline (n : Nat) : natStr n ≠ "\n" := by
  unfold natStr
  split
  · decide
  · intro h
    have hd : natDigitsAux n [] = ['\n'] := congrArg String.data h
    have hm : ('\n' : Char) ∈ natDigitsAux n [] := by rw [hd]; simp
    rcases mem_natDigitsGo '\n' n n [] hm with h1 | h2
    · simp at h1
    · exact absurd h2 (by decide)

theorem natStr_length_pos (n : Nat) : 0 < (natStr n).length := by
  unfold natStr
  split
  · decide
  · rename_i hn
    obtain ⟨m, rfl⟩ := Nat.exists_eq_succ_of_ne_zero hn
    show 0 < (natDigitsAux (m + 1) []).length
    unfold natDigitsAux
    simp only [natDigitsGo]
    exact lt_of_lt_of_le (by simp) (length_le_natDigitsGo m ((m + 1) / 10) _)

theorem intStr_ne_newline (i : Int) : intStr i ≠ "\n" := by
  unfold intStr
  split
  · intro h
    have hd := congrArg String.data h
    simp only [String.data_append] at hd
    have : ('-' : Char) ∈ (['\n'] : List Char) := by
      rw [← hd]; exact List.mem_append_left _ (by decide)
    exact absurd this (by decide)
  · exact natStr_ne_newline _

theorem intStr_length_pos (i : Int) : 0 < (intStr i).length := by
  unfold intStr
  split
  · simp only [String.length_append]
    have := natStr_length_pos i.natAbs
    omega
  · exact natStr_length_pos _

theorem ne_newline_of_one_lt_length (s : String) (h : 1 < s.length) : s ≠ "\n" := by
  intro e
  rw [e] at h
  exact absurd h (by decide)

theorem decStr1_ne_newline (q : ℚ) : decStr1 q ≠ "\n" := by
  have h1 : 0 < (intStr (roundHalfEven (10 * q) / 10)).length := intStr_length_pos _
  have h5 : 0 < (natStr (roundHalfEven (10 * q) % 10).natAbs).length := natStr_length_pos _
  intro h
  have h2 := congrArg String.length h
  simp only [decStr1, String.length_append] at h2
  have h3 : ("." : String).length = 1 := rfl
  have h4 : ("\n" : String).length = 1 := rfl
  rw [h3, h4] at h2
  omega

theorem fd_wrap_ne_newline (s : String) : ("^FD" ++ s ++ "^FS") ≠ "\n" := by
  apply ne_newline_of_one_lt_length
  simp only [String.length_append]
  have h1 : ("^FD" : String).length = 3 := rfl
  have h2 : ("^FS" : String).length = 3 := rfl
  omega

/-! ## Newline-fragment counting, for the one-newline-per-command invariant -/

/-- Number of fragments in the list that are exactly the newline fragment. -/
def newlineCount (l : List String) : Nat := l.countP (fun s => s == "\n")

theorem newlineCount_append (a b : List String) :
    newlineCount (a ++ b) = newlineCount a + newlineCount b :=
  List.countP_append _ _ _

theorem newlineCount_nil : newlineCount [] = 0 := rfl

theorem newlineCount_singleton_of_ne {s : String} (h : s ≠ "\n") : newlineCount [s] = 0 := by
  simp [newlineCount, List.countP_cons, h]

theorem newlineCount_newline : newlineCount ["\n"] = 1 := rfl

/-- Every successful run of the call m appends exactly n newline
fragments (raising runs are unconstrained). -/
def NlCnt (n : Nat) (m : ZRes Unit) : Prop :=
  ∀ l, m = ZRes.ok l () → newlineCount l = n

theorem NlCnt_thenZ {m k : ZRes Unit} {a b : Nat}
    (h1 : NlCnt a m) (h2 : NlCnt b k) : NlCnt (a + b) (thenZ m k) := by
  intro l h
  cases m with
  | ok l1 u =>
    cases u
    cases k with
    | ok l2 u2 =>
      cases u2
      simp only [thenZ, ZRes.bind, ZRes.prepend] at h
      cases h
      rw [newlineCount_append, h1 l1 rfl, h2 l2 rfl]
    | err l2 e => simp [thenZ, ZRes.bind, ZRes.prepend] at h
  | err l1 e => simp [thenZ, ZRes.bind] at h

theorem NlCnt_pureZ : NlCnt 0 pureZ := by
  intro l h
  cases h
  rfl

theorem NlCnt_emitZ {s : String} (h : s ≠ "\n") : NlCnt 0 (emitZ s) := by
  intro l hl
  cases hl
  exact newlineCount_singleton_of_ne h

theorem NlCnt_emit_newline : NlCnt 1 (emitZ "\n") := by
  intro l hl
  cases hl
  rfl

theorem NlCnt_err {n : Nat} (l : List String) (e : String) :
    NlCnt n (ZRes.err l e) := by
  intro l' h
  cases h

theorem NlCnt_raiseZ {n : Nat} (e : String) : NlCnt n (raiseZ e) :=
  NlCnt_err [] e

theorem NlCnt_ite {n : Nat} {c : Prop} [Decidable c] {a b : ZRes Unit}
    (h1 : NlCnt n a) (h2 : NlCnt n b) : NlCnt n (if c then a else b) := by
  split
  · exact h1
  · exact h2

theorem NlCnt_thenZ0 {m k : ZRes Unit} {n : Nat}
    (h1 : NlCnt 0 m) (h2 : NlCnt n k) : NlCnt n (thenZ m k) :=
  Nat.zero_add n ▸ NlCnt_thenZ h1 h2

theorem NlCnt_newline_after {m : ZRes Unit} (h : NlCnt 0 m) :
    NlCnt 1 (_newline_after m) :=
  NlCnt_thenZ h NlCnt_emit_newline

/-! ## The validators never append a newline fragment -/

theorem nl_add_comma (c : Bool) : NlCnt 0 (_add_comma c) := by
  unfold _add_comma
  exact NlCnt_ite (NlCnt_emitZ (by decide)) NlCnt_pureZ

theorem nl_add_int (v : Int) : NlCnt 0 (_add_int v) :=
  NlCnt_emitZ (intStr_ne_newline v)

theorem nl_add_int_value_in_range (v : Int) (f : String) (mn mx : Int) (c r : Bool) :
    NlCnt 0 (_add_int_value_in_range v f mn mx c r) := by
  unfold _add_int_value_in_range
  exact NlCnt_ite (NlCnt_thenZ (nl_add_comma c) (nl_add_int _))
    (NlCnt_ite (NlCnt_thenZ (nl_add_comma c) (nl_add_int _)) (NlCnt_raiseZ _))

theorem nl_add_value_in_list (v f : String) (vals : List String) (c : Bool)
    (hv : "\n" ∉ vals) : NlCnt 0 (_add_value_in_list v f vals c) := by
  unfold _add_value_in_list
  split
  · rename_i hmem
    exact NlCnt_thenZ (nl_add_comma c) (NlCnt_emitZ (fun e => hv (e ▸ hmem)))
  · exact NlCnt_raiseZ _

theorem nl_add_orientation (o : String) (c : Bool) : NlCnt 0 (_add_orientation o c) :=
  nl_add_value_in_list _ _ _ _ (by decide)

theorem nl_add_yes_no (v f : String) (c : Bool) : NlCnt 0 (_add_yes_no v f c) :=
  nl_add_value_in_list _ _ _ _ (by decide)

theorem nl_add_line_color (v : String) (c : Bool) : NlCnt 0 (_add_line_color v c) :=
  nl_add_value_in_list _ _ _ _ (by decide)

theorem nl_add_character_height (v : Int) (c : Bool) : NlCnt 0 (_add_character_height v c) :=
  nl_add_int_value_in_range _ _ _ _ _ _

theorem nl_add_decimal_value_in_range (v : ℚ) (f : String) (mn mx : Int) (c : Bool) :
    NlCnt 0 (_add_decimal_value_in_range v f mn mx c) := by
  unfold _add_decimal_value_in_range
  exact NlCnt_ite (NlCnt_thenZ (nl_add_comma c) (NlCnt_emitZ (decStr1_ne_newline v)))
    (NlCnt_raiseZ _)

theorem nl_verify_legal_characters (d ch : String) :
    NlCnt 0 (_verify_legal_characters d ch) := by
  unfold _verify_legal_characters
  exact NlCnt_ite NlCnt_pureZ (NlCnt_raiseZ _)

theorem nl_verify_data_numeric (d : String) : NlCnt 0 (_verify_data_numeric d) := by
  unfold _verify_data_numeric
  exact NlCnt_ite NlCnt_pureZ (NlCnt_raiseZ _)

theorem nl_verify_data_alphanumeric (d : String) : NlCnt 0 (_verify_data_alphanumeric d) := by
  unfold _verify_data_alphanumeric
  exact NlCnt_ite NlCnt_pureZ (NlCnt_raiseZ _)

theorem nl_add_field_data (p : FieldPayload) (rn : Bool) : NlCnt 1 (add_field_data p rn) := by
  unfold add_field_data
  cases p with
  | multi l =>
    exact NlCnt_newline_after
      (NlCnt_ite (NlCnt_err _ _) (NlCnt_emitZ (fd_wrap_ne_newline _)))
  | single s =>
    exact NlCnt_newline_after (NlCnt_emitZ (fd_wrap_ne_newline _))

theorem wrap3_ne_newline (pre s post : String) (h : 1 < pre.length) :
    pre ++ s ++ post ≠ "\n" := by
  apply ne_newline_of_one_lt_length
  simp only [String.length_append]
  omega

theorem caret_ne_newline (s : String) : ("^" ++ s) ≠ "\n" := by
  intro h
  have hd := congrArg String.data h
  simp only [String.data_append] at hd
  have : ('^' : Char) ∈ (['\n'] : List Char) := by
    rw [← hd]; exact List.mem_append_left _ (by decide)
  exact absurd this (by decide)

theorem NlCnt_newline_after1 {m : ZRes Unit} (h : NlCnt 1 m) :
    NlCnt 2 (_newline_after m) :=
  NlCnt_thenZ h NlCnt_emit_newline

/-! ## Every command appends its fixed number of newline fragments -/

theorem nl_add_print_quantity (q p r : Option Int) (ov ce : Option String) :
    NlCnt 1 (add_print_quantity q p r ov ce) := by
  unfold add_print_quantity
  apply NlCnt_newline_after
  apply NlCnt_thenZ0 (NlCnt_emitZ (by decide))
  rcases q with _ | q
  · exact NlCnt_pureZ
  apply NlCnt_thenZ0 (nl_add_int_value_in_range _ _ _ _ _ _)
  rcases p with _ | p
  · exact NlCnt_pureZ
  apply NlCnt_thenZ0 (nl_add_int_value_in_range _ _ _ _ _ _)
  rcases r with _ | r
  · exact NlCnt_pureZ
  apply NlCnt_thenZ0 (nl_add_int_value_in_range _ _ _ _ _ _)
  rcases ov with _ | ov
  · exact NlCnt_pureZ
  apply NlCnt_thenZ0 (nl_add_yes_no _ _ _)
  rcases ce with _ | ce
  · exact NlCnt_pureZ
  exact nl_add_yes_no _ _ _

theorem nl_add_field_data_code_11 (d : String) : NlCnt 1 (add_field_data_code_11 d) :=
  NlCnt_thenZ0 (nl_verify_legal_characters _ _) (nl_add_field_data _ _)

theorem nl_add_field_data_interleaved_2_of_5 (d : String) :
    NlCnt 1 (add_field_data_interleaved_2_of_5 d) :=
  NlCnt_thenZ0 (nl_verify_data_numeric _) (nl_add_field_data _ _)

theorem nl_add_field_data_code_39 (d : String) (ea : Bool) :
    NlCnt 1 (add_field_data_code_39 d ea) := by
  unfold add_field_data_code_39
  exact NlCnt_ite (NlCnt_err _ _)
    (NlCnt_thenZ0 (nl_verify_legal_characters _ _) (nl_add_field_data _ _))

theorem nl_add_field_data_planet_code (d : String) : NlCnt 1 (add_field_data_planet_code d) :=
  NlCnt_thenZ0 (nl_verify_data_numeric _) (nl_add_field_data _ _)

theorem nl_add_field_data_ean_8 (d : String) : NlCnt 1 (add_field_data_ean_8 d) :=
  NlCnt_thenZ0 (nl_verify_data_numeric _) (nl_add_field_data _ _)

theorem nl_add_field_data_upc_e (d : String) : NlCnt 1 (add_field_data_upc_e d) :=
  NlCnt_thenZ0 (nl_verify_data_numeric _) (nl_add_field_data _ _)

theorem nl_add_field_data_code_93 (d : String) (ea : Bool) :
    NlCnt 1 (add_field_data_code_93 d ea) := by
  unfold add_field_data_code_93
  exact NlCnt_ite (NlCnt_err _ _)
    (NlCnt_thenZ0 (nl_verify_legal_characters _ _) (nl_add_field_data _ _))

theorem nl_add_field_data_ean_13 (d : String) : NlCnt 1 (add_field_data_ean_13 d) :=
  NlCnt_thenZ0 (nl_verify_data_numeric _) (nl_add_field_data _ _)

theorem nl_add_field_data_industrial_2_of_5 (d : String) :
    NlCnt 1 (add_field_data_industrial_2_of_5 d) :=
  NlCnt_thenZ0 (nl_verify_data_numeric _) (nl_add_field_data _ _)

theorem nl_add_field_data_standard_2_of_5 (d : String) :
    NlCnt 1 (add_field_data_standard_2_of_5 d) :=
  NlCnt_thenZ0 (nl_verify_data_numeric _) (nl_add_field_data _ _)

theorem nl_add_field_data_ansi_codabar (d : String) (sc tc : Option String) :
    NlCnt 1 (add_field_data_ansi_codabar d sc tc) :=
  NlCnt_thenZ0 (nl_verify_legal_characters _ _) (nl_add_field_data _ _)

theorem nl_add_field_data_logmars (d : String) : NlCnt 1 (add_field_data_logmars d) :=
  nl_add_field_data_code_39 d false

theorem nl_add_field_data_msi (d : String) (cd : Option String) :
    NlCnt 1 (add_field_data_msi d cd) := by
  unfold add_field_data_msi
  exact NlCnt_ite (NlCnt_err _ _)
    (NlCnt_thenZ0 (nl_verify_data_numeric _) (nl_add_field_data _ _))

theorem nl_add_field_data_plessey (d : String) : NlCnt 1 (add_field_data_plessey d) :=
  NlCnt_thenZ0 (nl_verify_legal_characters _ _) (nl_add_field_data _ _)

theorem nl_add_field_data_upc_ean_extensions (d : String) :
    NlCnt 1 (add_field_data_upc_ean_extensions d) := by
  unfold add_field_data_upc_ean_extensions
  exact NlCnt_ite (NlCnt_err _ _)
    (NlCnt_thenZ0 (nl_verify_data_numeric _) (nl_add_field_data _ _))

theorem nl_tlc39_joined (a b c : String) : NlCnt 1 (tlc39_joined a b c) := by
  unfold tlc39_joined
  exact NlCnt_ite (NlCnt_err _ _) (NlCnt_ite (NlCnt_err _ _) (nl_add_field_data _ _))

theorem nl_add_field_data_tlc39 (eci : String) (sn : Option String)
    (ad : Option FieldPayload) : NlCnt 2 (add_field_data_tlc39 eci sn ad) := by
  unfold add_field_data_tlc39
  apply NlCnt_newline_after1
  apply NlCnt_ite (NlCnt_err _ _)
  rcases sn with _ | sn
  · exact nl_add_field_data _ _
  apply NlCnt_ite (NlCnt_err _ _)
  rcases ad with _ | ad
  · exact nl_add_field_data _ _
  rcases ad with s | l
  · exact NlCnt_ite (NlCnt_err _ _) (nl_tlc39_joined _ _ _)
  · exact NlCnt_ite (NlCnt_err _ _) (nl_tlc39_joined _ _ _)

theorem nl_add_field_data_upc_a (d : String) : NlCnt 1 (add_field_data_upc_a d) :=
  NlCnt_thenZ0 (nl_verify_data_numeric _) (nl_add_field_data _ _)

theorem nl_add_field_data_postal (d : String) : NlCnt 1 (add_field_data_postal d) :=
  NlCnt_thenZ0 (nl_verify_data_numeric _) (nl_add_field_data _ _)

theorem nl_add_font (fn : String) (o : Option String) (ch w : Option Int)
    (hfn : fn ≠ "\n") : NlCnt 1 (add_font fn o ch w) := by
  unfold add_font
  apply NlCnt_newline_after
  apply NlCnt_thenZ0 (NlCnt_emitZ (by decide))
  apply NlCnt_thenZ0 (NlCnt_emitZ hfn)
  rcases o with _ | o
  · exact NlCnt_pureZ
  apply NlCnt_thenZ0 (nl_add_orientation _ _)
  rcases ch with _ | ch
  · exact NlCnt_pureZ
  apply NlCnt_thenZ0 (nl_add_int_value_in_range _ _ _ _ _ _)
  rcases w with _ | w
  · exact NlCnt_pureZ
  exact NlCnt_ite NlCnt_pureZ (nl_add_int_value_in_range _ _ _ _ _ _)

theorem nl_add_label_home (x y : Option Int) : NlCnt 1 (add_label_home x y) := by
  unfold add_label_home
  apply NlCnt_newline_after
  apply NlCnt_thenZ0 (NlCnt_emitZ (by decide))
  rcases x with _ | x
  · exact NlCnt_pureZ
  apply NlCnt_thenZ0 (nl_add_int_value_in_range _ _ _ _ _ _)
  rcases y with _ | y
  · exact NlCnt_pureZ
  exact nl_add_int_value_in_range _ _ _ _ _ _

theorem nl_add_field_origin (x y j : Option Int) : NlCnt 1 (add_field_origin x y j) := by
  unfold add_field_origin
  apply NlCnt_newline_after
  apply NlCnt_thenZ0 (NlCnt_emitZ (by decide))
  rcases x with _ | x
  · exact NlCnt_pureZ
  apply NlCnt_thenZ0 (nl_add_int_value_in_range _ _ _ _ _ _)
  rcases y with _ | y
  · exact NlCnt_pureZ
  apply NlCnt_thenZ0 (nl_add_int_value_in_range _ _ _ _ _ _)
  rcases j with _ | j
  · exact NlCnt_pureZ
  exact nl_add_value_in_list _ _ _ _ (by decide)

theorem nl_add_field_block (w ml dbl : Option Int) (tj : Option String) (hi : Option Int) :
    NlCnt 1 (add_field_block w ml dbl tj hi) := by
  unfold add_field_block
  apply NlCnt_newline_after
  apply NlCnt_thenZ0 (NlCnt_emitZ (by decide))
  rcases w with _ | w
  · exact NlCnt_pureZ
  apply NlCnt_thenZ0 (nl_add_int _)
  rcases ml with _ | ml
  · exact NlCnt_pureZ
  apply NlCnt_thenZ0 (nl_add_int_value_in_range _ _ _ _ _ _)
  rcases dbl with _ | dbl
  · exact NlCnt_pureZ
  apply NlCnt_thenZ0 (nl_add_int_value_in_range _ _ _ _ _ _)
  rcases tj with _ | tj
  · exact NlCnt_pureZ
  apply NlCnt_thenZ0 (nl_add_value_in_list _ _ _ _ (by decide))
  rcases hi with _ | hi
  · exact NlCnt_pureZ
  exact nl_add_int_value_in_range _ _ _ _ _ _

theorem nl_add_standard_1d_barcode (zc : String) (o cd1 : Option String) (h : Option Int)
    (pt ta cd2 : Option String) : NlCnt 0 (_add_standard_1d_barcode zc o cd1 h pt ta cd2) := by
  unfold _add_standard_1d_barcode
  apply NlCnt_thenZ0 (NlCnt_emitZ (caret_ne_newline _))
  rcases o with _ | o
  · exact NlCnt_pureZ
  apply NlCnt_thenZ0 (nl_add_orientation _ _)
  apply NlCnt_thenZ0
  · rcases cd1 with _ | cd1
    · exact NlCnt_pureZ
    · exact NlCnt_ite NlCnt_pureZ (nl_add_yes_no _ _ _)
  rcases h with _ | h
  · exact NlCnt_pureZ
  apply NlCnt_thenZ0 (nl_add_int_value_in_range _ _ _ _ _ _)
  rcases pt with _ | pt
  · exact NlCnt_pureZ
  apply NlCnt_thenZ0 (nl_add_yes_no _ _ _)
  rcases ta with _ | ta
  · exact NlCnt_pureZ
  apply NlCnt_thenZ0 (nl_add_yes_no _ _ _)
  rcases cd2 with _ | cd2
  · exact NlCnt_pureZ
  exact nl_add_yes_no _ _ _

theorem nl_add_barcode_code_11 (o cd : Option String) (h : Option Int)
    (pt ta : Option String) : NlCnt 1 (add_barcode_code_11 o cd h pt ta) :=
  NlCnt_newline_after (nl_add_standard_1d_barcode _ _ _ _ _ _ _)

theorem nl_add_barcode_interleaved_2_of_5 (o : Option String) (h : Option Int)
    (pt ta cd : Option String) : NlCnt 1 (add_barcode_interleaved_2_of_5 o h pt ta cd) :=
  NlCnt_newline_after (nl_add_standard_1d_barcode _ _ _ _ _ _ _)

theorem nl_add_barcode_code_39 (o cd : Option String) (h : Option Int)
    (pt ta : Option String) : NlCnt 1 (add_barcode_code_39 o cd h pt ta) :=
  NlCnt_newline_after (nl_add_standard_1d_barcode _ _ _ _ _ _ _)

theorem nl_add_barcode_planet_code (o : Option String) (h : Option Int)
    (pt ta : Option String) : NlCnt 1 (add_barcode_planet_code o h pt ta) :=
  NlCnt_newline_after (nl_add_standard_1d_barcode _ _ _ _ _ _ _)

theorem nl_add_barcode_ean_8 (o : Option String) (h : Option Int)
    (pt ta : Option String) : NlCnt 1 (add_barcode_ean_8 o h pt ta) :=
  NlCnt_newline_after (nl_add_standard_1d_barcode _ _ _ _ _ _ _)

theorem nl_add_barcode_upc_e (o : Option String) (h : Option Int)
    (pt ta cd : Option String) : NlCnt 1 (add_barcode_upc_e o h pt ta cd) :=
  NlCnt_newline_after (nl_add_standard_1d_barcode _ _ _ _ _ _ _)

theorem nl_add_barcode_code_93 (o : Option String) (h : Option Int)
    (pt ta cd : Option String) : NlCnt 1 (add_barcode_code_93 o h pt ta cd) :=
  NlCnt_newline_after (nl_add_standard_1d_barcode _ _ _ _ _ _ _)

theorem nl_add_barcode_code_128 (o : Option String) (h : Option Int)
    (pt ta cd : Option String) : NlCnt 1 (add_barcode_code_128 o h pt ta cd) :=
  NlCnt_newline_after (nl_add_standard_1d_barcode _ _ _ _ _ _ _)

theorem nl_add_barcode_ean_13 (o : Option String) (h : Option Int)
    (pt ta : Option String) : NlCnt 1 (add_barcode_ean_13 o h pt ta) :=
  NlCnt_newline_after (nl_add_standard_1d_barcode _ _ _ _ _ _ _)

theorem nl_add_barcode_upc_ean_extensions (o : Option String) (h : Option Int)
    (pt ta : Option String) : NlCnt 1 (add_barcode_upc_ean_extensions o h pt ta) :=
  NlCnt_newline_after (nl_add_standard_1d_barcode _ _ _ _ _ _ _)

theorem nl_add_barcode_upc_a (o : Option String) (h : Option Int)
    (pt ta cd : Option String) : NlCnt 1 (add_barcode_upc_a o h pt ta cd) :=
  NlCnt_newline_after (nl_add_standard_1d_barcode _ _ _ _ _ _ _)

theorem nl_add_barcode_postal (o : Option String) (h : Option Int)
    (pt ta : Option String) (ct : Option Int) : NlCnt 1 (add_barcode_postal o h pt ta ct) := by
  unfold add_barcode_postal
  apply NlCnt_newline_after
  apply NlCnt_thenZ0 (nl_add_standard_1d_barcode _ _ _ _ _ _ _)
  rcases ct with _ | ct
  · exact NlCnt_pureZ
  exact nl_add_int_value_in_range _ _ _ _ _ _

theorem nl_add_barcode_logmars (o : Option String) (h : Option Int)
    (ta : Option String) : NlCnt 1 (add_barcode_logmars o h ta) := by
  unfold add_barcode_logmars
  apply NlCnt_newline_after
  apply NlCnt_thenZ0 (nl_add_standard_1d_barcode _ _ _ _ _ _ _)
  rcases ta with _ | ta
  · exact NlCnt_pureZ
  exact nl_add_yes_no _ _ _

theorem nl_add_barcode_standard_2_of_5 (o : Option String) (h : Option Int)
    (pt ta : Option String) : NlCnt 1 (add_barcode_standard_2_of_5 o h pt ta) :=
  NlCnt_newline_after (nl_add_standard_1d_barcode _ _ _ _ _ _ _)

theorem nl_add_barcode_plessey (o cd : Option String) (h : Option Int)
    (pt ta : Option String) : NlCnt 1 (add_barcode_plessey o cd h pt ta) :=
  NlCnt_newline_after (nl_add_standard_1d_barcode _ _ _ _ _ _ _)

theorem nl_add_barcode_industrial_2_of_5 (o : Option String) (h : Option Int)
    (pt ta : Option String) : NlCnt 1 (add_barcode_industrial_2_of_5 o h pt ta) := by
  unfold add_barcode_industrial_2_of_5
  apply NlCnt_newline_after
  apply NlCnt_thenZ0 (NlCnt_emitZ (by decide))
  rcases o with _ | o
  · exact NlCnt_pureZ
  apply NlCnt_thenZ0 (nl_add_orientation _ _)
  apply NlCnt_thenZ0
  · rcases h with _ | h
    · exact NlCnt_pureZ
    · exact NlCnt_ite NlCnt_pureZ (nl_add_yes_no _ _ _)
  rcases pt with _ | pt
  · exact NlCnt_pureZ
  exact NlCnt_raiseZ _

theorem nl_add_barcode_ansi_codabar (o : Option String) (h : Option Int)
    (pt ta sc tc : Option String) : NlCnt 1 (add_barcode_ansi_codabar o h pt ta sc tc) := by
  unfold add_barcode_ansi_codabar
  apply NlCnt_newline_after
  apply NlCnt_thenZ0 (nl_add_standard_1d_barcode _ _ _ _ _ _ _)
  rcases sc with _ | sc
  · exact NlCnt_pureZ
  apply NlCnt_thenZ0 (nl_add_value_in_list _ _ _ _ (by decide))
  rcases tc with _ | tc
  · exact NlCnt_pureZ
  exact nl_add_value_in_list _ _ _ _ (by decide)

theorem nl_add_barcode_msi (o cd : Option String) (h : Option Int)
    (pt ta icd : Option String) : NlCnt 1 (add_barcode_msi o cd h pt ta icd) := by
  unfold add_barcode_msi
  apply NlCnt_newline_after
  apply NlCnt_thenZ0 (NlCnt_emitZ (by decide))
  rcases o with _ | o
  · exact NlCnt_pureZ
  apply NlCnt_thenZ0 (nl_add_orientation _ _)
  rcases cd with _ | cd
  · exact NlCnt_pureZ
  apply NlCnt_thenZ0 (nl_add_value_in_list _ _ _ _ (by decide))
  rcases h with _ | h
  · exact NlCnt_pureZ
  apply NlCnt_thenZ0 (nl_add_int_value_in_range _ _ _ _ _ _)
  rcases pt with _ | pt
  · exact NlCnt_pureZ
  apply NlCnt_thenZ0 (nl_add_yes_no _ _ _)
  rcases ta with _ | ta
  · exact NlCnt_pureZ
  apply NlCnt_thenZ0 (nl_add_yes_no _ _ _)
  rcases icd with _ | icd
  · exact NlCnt_pureZ
  exact nl_add_yes_no _ _ _

theorem aztec_ec_ne_newline (ec : Int) :
    (if 1 ≤ ec ∧ ec ≤ 9 then "0" ++ intStr ec else intStr ec) ≠ "\n" := by
  split
  · apply ne_newline_of_one_lt_length
    simp only [String.length_append]
    have h0 : ("0" : String).length = 1 := rfl
    have := intStr_length_pos ec
    omega
  · exact intStr_ne_newline ec

theorem nl_add_barcode_aztec (o : Option String) (m : Option Int) (e : Option String)
    (ec : Option Int) (ms : Option String) (ns : Option Int) (sia : Option String)
    (hsia : sia ≠ some "\n") : NlCnt 1 (add_barcode_aztec o m e ec ms ns sia) := by
  unfold add_barcode_aztec
  apply NlCnt_newline_after
  apply NlCnt_thenZ0 (NlCnt_emitZ (by decide))
  rcases o with _ | o
  · exact NlCnt_pureZ
  apply NlCnt_thenZ0 (nl_add_orientation _ _)
  rcases m with _ | m
  · exact NlCnt_pureZ
  apply NlCnt_thenZ0 (nl_add_int_value_in_range _ _ _ _ _ _)
  rcases e with _ | e
  · exact NlCnt_pureZ
  apply NlCnt_thenZ0 (nl_add_yes_no _ _ _)
  rcases ec with _ | ec
  · exact NlCnt_pureZ
  apply NlCnt_ite (NlCnt_raiseZ _)
  apply NlCnt_thenZ0 (NlCnt_thenZ0 (nl_add_comma _) (NlCnt_emitZ (aztec_ec_ne_newline ec)))
  rcases ms with _ | ms
  · exact NlCnt_pureZ
  apply NlCnt_thenZ0 (nl_add_yes_no _ _ _)
  rcases ns with _ | ns
  · exact NlCnt_pureZ
  apply NlCnt_thenZ0 (nl_add_int_value_in_range _ _ _ _ _ _)
  rcases sia with _ | sia
  · exact NlCnt_pureZ
  apply NlCnt_ite (NlCnt_raiseZ _)
  exact NlCnt_thenZ0 (nl_add_comma _)
    (NlCnt_emitZ (fun h => hsia (by rw [h])))

theorem code49_interp_ne_newline (pt : String) (ta : Option String) :
    (if pt = "Y" then (if ta = some "Y" then "A" else "B") else "N") ≠ "\n" := by
  split
  · split <;> decide
  · decide

theorem nl_add_barcode_code_49 (o : Option String) (hm : Option Int)
    (pt ta sm : Option String) : NlCnt 1 (add_barcode_code_49 o hm pt ta sm) := by
  unfold add_barcode_code_49
  apply NlCnt_newline_after
  apply NlCnt_thenZ0 (NlCnt_emitZ (by decide))
  rcases o with _ | o
  · exact NlCnt_pureZ
  apply NlCnt_thenZ0 (nl_add_orientation _ _)
  rcases hm with _ | hm
  · exact NlCnt_pureZ
  apply NlCnt_thenZ0 (nl_add_int _)
  rcases pt with _ | pt
  · exact NlCnt_pureZ
  apply NlCnt_ite (NlCnt_raiseZ _)
  apply NlCnt_ite (NlCnt_raiseZ _)
  apply NlCnt_thenZ0
    (NlCnt_thenZ0 (nl_add_comma _) (NlCnt_emitZ (code49_interp_ne_newline pt ta)))
  rcases sm with _ | sm
  · exact NlCnt_pureZ
  exact nl_add_value_in_list _ _ _ _ (by decide)

theorem nl_add_barcode_pdf417 (o : Option String) (h sl dcc rc : Option Int)
    (t : Option String) : NlCnt 1 (add_barcode_pdf417 o h sl dcc rc t) := by
  unfold add_barcode_pdf417
  apply NlCnt_newline_after
  apply NlCnt_thenZ0 (NlCnt_emitZ (by decide))
  rcases o with _ | o
  · exact NlCnt_pureZ
  apply NlCnt_thenZ0 (nl_add_orientation _ _)
  rcases h with _ | h
  · exact NlCnt_pureZ
  apply NlCnt_thenZ0 (nl_add_int _)
  rcases sl with _ | sl
  · exact NlCnt_pureZ
  apply NlCnt_thenZ0 (nl_add_int_value_in_range _ _ _ _ _ _)
  rcases dcc with _ | dcc
  · exact NlCnt_pureZ
  apply NlCnt_thenZ0 (nl_add_int_value_in_range _ _ _ _ _ _)
  rcases rc with _ | rc
  · exact NlCnt_pureZ
  apply NlCnt_thenZ0 (nl_add_int_value_in_range _ _ _ _ _ _)
  rcases t with _ | t
  · exact NlCnt_pureZ
  exact nl_add_yes_no _ _ _

theorem nl_add_barcode_ups_maxicode (m sn sc : Option Int) :
    NlCnt 1 (add_barcode_ups_maxicode m sn sc) := by
  unfold add_barcode_ups_maxicode
  apply NlCnt_newline_after
  apply NlCnt_thenZ0 (NlCnt_emitZ (by decide))
  rcases m with _ | m
  · exact NlCnt_pureZ
  apply NlCnt_thenZ0 (nl_add_int_value_in_range _ _ _ _ _ _)
  rcases sn with _ | sn
  · exact NlCnt_pureZ
  apply NlCnt_thenZ0 (nl_add_int_value_in_range _ _ _ _ _ _)
  rcases sc with _ | sc
  · exact NlCnt_pureZ
  exact nl_add_int_value_in_range _ _ _ _ _ _

theorem nl_add_barcode_codablock (o : Option String) (h : Option Int)
    (sl : Option String) (cpr rc : Option Int) (mode : String) :
    NlCnt 1 (add_barcode_codablock o h sl cpr rc mode) := by
  unfold add_barcode_codablock
  apply NlCnt_newline_after
  apply NlCnt_thenZ0 (NlCnt_emitZ (by decide))
  rcases o with _ | o
  · exact NlCnt_pureZ
  apply NlCnt_thenZ0 (nl_add_orientation _ _)
  rcases h with _ | h
  · exact NlCnt_pureZ
  apply NlCnt_thenZ0 (nl_add_int_value_in_range _ _ _ _ _ _)
  rcases sl with _ | sl
  · exact NlCnt_pureZ
  apply NlCnt_thenZ0 (nl_add_yes_no _ _ _)
  rcases cpr with _ | cpr
  · exact NlCnt_pureZ
  apply NlCnt_thenZ0 (nl_add_int_value_in_range _ _ _ _ _ _)
  rcases rc with _ | rc
  · exact NlCnt_pureZ
  apply NlCnt_thenZ0
  · exact NlCnt_ite (nl_add_int_value_in_range _ _ _ _ _ _)
      (NlCnt_ite (nl_add_int_value_in_range _ _ _ _ _ _) NlCnt_pureZ)
  exact nl_add_value_in_list _ _ _ _ (by decide)

theorem nl_add_barcode_micropdf_417 (o : Option String) (h m : Option Int) :
    NlCnt 1 (add_barcode_micropdf_417 o h m) := by
  unfold add_barcode_micropdf_417
  apply NlCnt_newline_after
  apply NlCnt_thenZ0 (NlCnt_emitZ (by decide))
  rcases o with _ | o
  · exact NlCnt_pureZ
  apply NlCnt_thenZ0 (nl_add_orientation _ _)
  rcases h with _ | h
  · exact NlCnt_pureZ
  apply NlCnt_thenZ0 (nl_add_int_value_in_range _ _ _ _ _ _)
  rcases m with _ | m
  · exact NlCnt_pureZ
  exact nl_add_int_value_in_range _ _ _ _ _ _

theorem nl_add_barcode_qr (m mg : Option Int) (ecc : Option String) (mv : Option Int) :
    NlCnt 1 (add_barcode_qr m mg ecc mv) := by
  unfold add_barcode_qr
  apply NlCnt_newline_after
  apply NlCnt_thenZ0 (NlCnt_emitZ (by decide))
  rcases m with _ | m
  · exact NlCnt_pureZ
  apply NlCnt_thenZ0 (nl_add_value_in_list _ _ _ _ (by decide))
  rcases mg with _ | mg
  · exact NlCnt_pureZ
  apply NlCnt_thenZ0 (nl_add_int_value_in_range _ _ _ _ _ _)
  rcases ecc with _ | ecc
  · exact NlCnt_pureZ
  apply NlCnt_thenZ0 (nl_add_value_in_list _ _ _ _ (by decide))
  rcases mv with _ | mv
  · exact NlCnt_pureZ
  exact nl_add_int_value_in_range _ _ _ _ _ _

theorem nl_add_barcode_gs1_batabar (o : Option String) (st mg sh h w : Option Int) :
    NlCnt 1 (add_barcode_gs1_batabar o st mg sh h w) := by
  unfold add_barcode_gs1_batabar
  apply NlCnt_newline_after
  apply NlCnt_thenZ0 (NlCnt_emitZ (by decide))
  rcases o with _ | o
  · exact NlCnt_pureZ
  apply NlCnt_thenZ0 (nl_add_orientation _ _)
  rcases st with _ | st
  · exact NlCnt_pureZ
  apply NlCnt_thenZ0 (nl_add_int_value_in_range _ _ _ _ _ _)
  rcases mg with _ | mg
  · exact NlCnt_pureZ
  apply NlCnt_thenZ0 (nl_add_int_value_in_range _ _ _ _ _ _)
  rcases sh with _ | sh
  · exact NlCnt_pureZ
  apply NlCnt_thenZ0 (nl_add_value_in_list _ _ _ _ (by decide))
  rcases h with _ | h
  · exact NlCnt_pureZ
  apply NlCnt_thenZ0 (nl_add_int_value_in_range _ _ _ _ _ _)
  rcases w with _ | w
  · exact NlCnt_pureZ
  exact NlCnt_ite NlCnt_pureZ (NlCnt_ite (NlCnt_raiseZ _) (nl_add_int_value_in_range _ _ _ _ _ _))

theorem nl_add_barcode_data_matrix (o : Option String) (h q c r fid : Option Int)
    (es : Option String) (ar : Option Int) (hes : es ≠ some "\n") :
    NlCnt 1 (add_barcode_data_matrix o h q c r fid es ar) := by
  unfold add_barcode_data_matrix
  apply NlCnt_newline_after
  apply NlCnt_thenZ0 (NlCnt_emitZ (by decide))
  rcases o with _ | o
  · exact NlCnt_pureZ
  apply NlCnt_thenZ0 (nl_add_orientation _ _)
  rcases h with _ | h
  · exact NlCnt_pureZ
  apply NlCnt_thenZ0 (nl_add_int_value_in_range _ _ _ _ _ _)
  rcases q with _ | q
  · exact NlCnt_pureZ
  apply NlCnt_thenZ0 (nl_add_value_in_list _ _ _ _ (by decide))
  rcases c with _ | c
  · exact NlCnt_pureZ
  apply NlCnt_thenZ0
  · exact NlCnt_ite
      (NlCnt_ite (NlCnt_raiseZ _) (nl_add_int_value_in_range _ _ _ _ _ _))
      (NlCnt_ite (NlCnt_raiseZ _) (nl_add_int_value_in_range _ _ _ _ _ _))
  rcases r with _ | r
  · exact NlCnt_pureZ
  apply NlCnt_thenZ0 (nl_add_int_value_in_range _ _ _ _ _ _)
  rcases fid with _ | fid
  · exact NlCnt_pureZ
  apply NlCnt_thenZ0 (nl_add_int_value_in_range _ _ _ _ _ _)
  rcases es with _ | es
  · exact NlCnt_pureZ
  apply NlCnt_ite (NlCnt_raiseZ _)
  apply NlCnt_thenZ0
    (NlCnt_thenZ0 (nl_add_comma _) (NlCnt_emitZ (fun e => hes (by rw [e]))))
  rcases ar with _ | ar
  · exact NlCnt_pureZ
  exact nl_add_int_value_in_range _ _ _ _ _ _

theorem nl_add_barcode_tlc39 (o : Option String) (w : Option Int) (r : Option ℚ)
    (h mh mw : Option Int) : NlCnt 1 (add_barcode_tlc39 o w r h mh mw) := by
  unfold add_barcode_tlc39
  apply NlCnt_newline_after
  apply NlCnt_thenZ0 (NlCnt_emitZ (by decide))
  rcases o with _ | o
  · exact NlCnt_pureZ
  apply NlCnt_thenZ0 (nl_add_orientation _ _)
  rcases w with _ | w
  · exact NlCnt_pureZ
  apply NlCnt_thenZ0 (nl_add_int_value_in_range _ _ _ _ _ _)
  rcases r with _ | r
  · exact NlCnt_pureZ
  apply NlCnt_thenZ0 (nl_add_decimal_value_in_range _ _ _ _ _)
  rcases h with _ | h
  · exact NlCnt_pureZ
  apply NlCnt_thenZ0 (nl_add_int_value_in_range _ _ _ _ _ _)
  rcases mh with _ | mh
  · exact NlCnt_pureZ
  apply NlCnt_thenZ0 (nl_add_int_value_in_range _ _ _ _ _ _)
  rcases mw with _ | mw
  · exact NlCnt_pureZ
  exact nl_add_int_value_in_range _ _ _ _ _ _

theorem nl_add_barcode_default (mw : Option Int) (r : Option ℚ) (h : Option Int) :
    NlCnt 1 (add_barcode_default mw r h) := by
  unfold add_barcode_default
  apply NlCnt_newline_after
  apply NlCnt_thenZ0 (NlCnt_emitZ (by decide))
  rcases mw with _ | mw
  · exact NlCnt_pureZ
  apply NlCnt_thenZ0 (nl_add_int_value_in_range _ _ _ _ _ _)
  rcases r with _ | r
  · exact NlCnt_pureZ
  apply NlCnt_thenZ0 (nl_add_decimal_value_in_range _ _ _ _ _)
  apply NlCnt_thenZ0 (nl_add_int_value_in_range _ _ _ _ _ _)
  rcases h with _ | h
  · exact NlCnt_pureZ
  exact nl_add_int_value_in_range _ _ _ _ _ _

theorem fx_wrap_ne_newline (s : String) : ("^FX" ++ s ++ "^FS") ≠ "\n" :=
  wrap3_ne_newline _ _ _ (by decide)

theorem nl_add_comment (ct : String) : NlCnt 1 (add_comment ct) :=
  NlCnt_newline_after (NlCnt_emitZ (fx_wrap_ne_newline ct))

theorem nl_add_graphic_box (w h b : Option Int) (lc : Option String) (cr : Option Int) :
    NlCnt 1 (add_graphic_box w h b lc cr) := by
  unfold add_graphic_box
  apply NlCnt_newline_after
  apply NlCnt_thenZ0 (NlCnt_emitZ (by decide))
  rcases w with _ | w
  · exact NlCnt_pureZ
  apply NlCnt_thenZ0 (nl_add_int_value_in_range _ _ _ _ _ _)
  rcases h with _ | h
  · exact NlCnt_pureZ
  apply NlCnt_thenZ0 (nl_add_int_value_in_range _ _ _ _ _ _)
  rcases b with _ | b
  · exact NlCnt_pureZ
  apply NlCnt_thenZ0 (nl_add_int_value_in_range _ _ _ _ _ _)
  rcases lc with _ | lc
  · exact NlCnt_pureZ
  apply NlCnt_thenZ0 (nl_add_line_color _ _)
  rcases cr with _ | cr
  · exact NlCnt_pureZ
  exact nl_add_int_value_in_range _ _ _ _ _ _

theorem nl_add_graphic_circle (d b : Option Int) (c : Option String) :
    NlCnt 1 (add_graphic_circle d b c) := by
  unfold add_graphic_circle
  apply NlCnt_newline_after
  apply NlCnt_thenZ0 (NlCnt_emitZ (by decide))
  rcases d with _ | d
  · exact NlCnt_pureZ
  apply NlCnt_thenZ0 (nl_add_int_value_in_range _ _ _ _ _ _)
  rcases b with _ | b
  · exact NlCnt_pureZ
  apply NlCnt_thenZ0 (nl_add_int_value_in_range _ _ _ _ _ _)
  rcases c with _ | c
  · exact NlCnt_pureZ
  exact nl_add_line_color _ _

/-! ## Success and failure characterisations of the validators -/

theorem range_ok {v mn mx : Int} (f : String) (c : Bool) (h1 : mn ≤ v) (h2 : v ≤ mx) :
    _add_int_value_in_range v f mn mx c false =
      .ok ((if c then [","] else []) ++ [intStr v]) () := by
  unfold _add_int_value_in_range
  rw [if_neg (by simp), if_pos ⟨h1, h2⟩]
  cases c <;> rfl

theorem range_err {v mn mx : Int} (f : String) (c : Bool) (h : ¬(mn ≤ v ∧ v ≤ mx)) :
    _add_int_value_in_range v f mn mx c false =
      .err [] (f ++ " must be between " ++ intStr mn ++ " and " ++
        intStr mx ++ " (inclusive)") := by
  unfold _add_int_value_in_range
  rw [if_neg (by simp), if_neg h]
  rfl

theorem range_clamp {v mn mx : Int} (f : String) (c : Bool) :
    _add_int_value_in_range v f mn mx c true =
      .ok ((if c then [","] else []) ++ [intStr (max mn (min mx v))]) () := by
  unfold _add_int_value_in_range
  rw [if_pos rfl]
  cases c <;> rfl

theorem list_ok {v f : String} {vals : List String} (c : Bool) (h : v ∈ vals) :
    _add_value_in_list v f vals c = .ok ((if c then [","] else []) ++ [v]) () := by
  unfold _add_value_in_list
  rw [if_pos h]
  cases c <;> rfl

theorem list_err {v f : String} {vals : List String} (c : Bool) (h : v ∉ vals) :
    _add_value_in_list v f vals c = .err [] (f ++ " must be in " ++ pyStrList vals) := by
  unfold _add_value_in_list
  rw [if_neg h]
  rfl

theorem decimal_ok {v : ℚ} {mn mx : Int} (f : String) (c : Bool)
    (h1 : (mn : ℚ) ≤ v) (h2 : v ≤ (mx : ℚ)) :
    _add_decimal_value_in_range v f mn mx c =
      .ok ((if c then [","] else []) ++ [decStr1 v]) () := by
  unfold _add_decimal_value_in_range
  rw [if_pos ⟨h1, h2⟩]
  cases c <;> rfl

/-! ## C1 -/

/-- C1: for add_print_quantity, supplying quantity and replicates_of_serial
but omitting pause_and_cut_count emits only the opcode PQ, the quantity
value and the trailing newline; supplying all five parameters emits all
five in declaration order, each preceded by a comma except the first;
supplying none emits only the opcode and the trailing newline. -/
theorem C1_print_quantity_halt_on_gap :
    (∀ q r : Int, 1 ≤ q → q ≤ 99999999 →
      add_print_quantity (some q) none (some r) none none =
        .ok ["^PQ", intStr q, "\n"] ()) ∧
    (∀ q p r : Int, ∀ ov ce : String,
      1 ≤ q → q ≤ 99999999 → 0 ≤ p → p ≤ 99999999 → 0 ≤ r → r ≤ 99999999 →
      (ov = "Y" ∨ ov = "N") → (ce = "Y" ∨ ce = "N") →
      add_print_quantity (some q) (some p) (some r) (some ov) (some ce) =
        .ok ["^PQ", intStr q, ",", intStr p, ",", intStr r, ",", ov, ",", ce, "\n"] ()) ∧
    add_print_quantity none none none none none = .ok ["^PQ", "\n"] () := by
  refine ⟨?_, ?_, rfl⟩
  · intro q r h1 h2
    simp [add_print_quantity, _newline_after, range_ok "quantity" false h1 h2,
      thenZ, ZRes.bind, ZRes.prepend, pureZ, emitZ]
  · intro q p r ov ce h1 h2 h3 h4 h5 h6 hov hce
    have hov' : ov ∈ ["Y", "N"] := by rcases hov with h | h <;> simp [h]
    have hce' : ce ∈ ["Y", "N"] := by rcases hce with h | h <;> simp [h]
    simp [add_print_quantity, _newline_after, _add_yes_no,
      range_ok "quantity" false h1 h2, range_ok "pause_and_cut_count" true h3 h4,
      range_ok "replicates_of_serial" true h5 h6,
      list_ok true hov', list_ok true hce',
      thenZ, ZRes.bind, ZRes.prepend, pureZ, emitZ]

/-- Concrete instantiation of C1 with the hypotheses discharged. -/
theorem C1_print_quantity_halt_on_gap_witness :
    add_print_quantity (some 3) none (some 5) none none = .ok ["^PQ", "3", "\n"] () ∧
    add_print_quantity (some 3) (some 0) (some 5) (some "Y") (some "N") =
      .ok ["^PQ", "3", ",", "0", ",", "5", ",", "Y", ",", "N", "\n"] () := by
  constructor
  · exact (C1_print_quantity_halt_on_gap.1 3 5 (by decide) (by decide)).trans (by decide)
  · exact (C1_print_quantity_halt_on_gap.2.1 3 0 5 "Y" "N" (by decide) (by decide) (by decide)
      (by decide) (by decide) (by decide) (Or.inl rfl) (Or.inr rfl)).trans (by decide)

/-! ## C3 -/

/-- C3: integer range validation: under the clamp policy (reset_back) the
emitted value is min when the input is below min, max when above max, and
the input itself when within range; under the reject policy an out-of-range
input raises an error naming the field and both bounds while the two
boundary values are accepted and emitted; add_graphic_circle applies the
clamp policy to its diameter over the range 3 to 4095. -/
theorem C3_range_validator_contract :
    (∀ v mn mx : Int, ∀ f : String, ∀ c : Bool, mn ≤ mx →
      (v < mn → _add_int_value_in_range v f mn mx c true =
        .ok ((if c then [","] else []) ++ [intStr mn]) ()) ∧
      (mx < v → _add_int_value_in_range v f mn mx c true =
        .ok ((if c then [","] else []) ++ [intStr mx]) ()) ∧
      (mn ≤ v → v ≤ mx → _add_int_value_in_range v f mn mx c true =
        .ok ((if c then [","] else []) ++ [intStr v]) ())) ∧
    (∀ v mn mx : Int, ∀ f : String, ∀ c : Bool, ¬(mn ≤ v ∧ v ≤ mx) →
      _add_int_value_in_range v f mn mx c false =
        .err [] (f ++ " must be between " ++ intStr mn ++ " and " ++
          intStr mx ++ " (inclusive)")) ∧
    (∀ mn mx : Int, ∀ f : String, ∀ c : Bool, mn ≤ mx →
      _add_int_value_in_range mn f mn mx c false =
        .ok ((if c then [","] else []) ++ [intStr mn]) () ∧
      _add_int_value_in_range mx f mn mx c false =
        .ok ((if c then [","] else []) ++ [intStr mx]) ()) ∧
    (∀ d : Int, add_graphic_circle (some d) none none =
      .ok ["^GC", intStr (max 3 (min 4095 d)), "\n"] ()) := by
  refine ⟨?_, ?_, ?_, ?_⟩
  · intro v mn mx f c hmm
    refine ⟨?_, ?_, ?_⟩
    · intro hv
      have e1 : min mx v = v := min_eq_right (le_trans (le_of_lt hv) hmm)
      have e2 : max mn (min mx v) = mn := by rw [e1]; exact max_eq_left (le_of_lt hv)
      rw [range_clamp, e2]
    · intro hv
      have e1 : min mx v = mx := min_eq_left (le_of_lt hv)
      have e2 : max mn (min mx v) = mx := by rw [e1]; exact max_eq_right hmm
      rw [range_clamp, e2]
    · intro hv1 hv2
      have e1 : min mx v = v := min_eq_right hv2
      have e2 : max mn (min mx v) = v := by rw [e1]; exact max_eq_right hv1
      rw [range_clamp, e2]
  · intro v mn mx f c h
    exact range_err f c h
  · intro mn mx f c hmm
    exact ⟨range_ok f c le_rfl hmm, range_ok f c hmm le_rfl⟩
  · intro d
    simp [add_graphic_circle, _newline_after, range_clamp, thenZ, ZRes.bind,
      ZRes.prepend, pureZ, emitZ]

/-- Concrete instantiation of C3 with the hypotheses discharged. -/
theorem C3_range_validator_contract_witness :
    _add_int_value_in_range 1 "diameter" 3 4095 false true = .ok ["3"] () ∧
    _add_int_value_in_range 5000 "diameter" 3 4095 false true = .ok ["4095"] () ∧
    _add_int_value_in_range 10 "diameter" 3 4095 false true = .ok ["10"] () ∧
    _add_int_value_in_range 0 "border" 1 4095 true false =
      .err [] "border must be between 1 and 4095 (inclusive)" := by
  refine ⟨?_, ?_, ?_, ?_⟩
  · exact (((C3_range_validator_contract.1 1 3 4095 "diameter" false (by decide)).1)
      (by decide)).trans (by decide)
  · exact (((C3_range_validator_contract.1 5000 3 4095 "diameter" false (by decide)).2.1)
      (by decide)).trans (by decide)
  · exact (((C3_range_validator_contract.1 10 3 4095 "diameter" false (by decide)).2.2)
      (by decide) (by decide)).trans (by decide)
  · exact (C3_range_validator_contract.2.1 0 1 4095 "border" true (by decide)).trans (by decide)

/-! ## C5 -/

theorem verify_numeric_ok {s : String} (h1 : s ≠ "") (h2 : s.toList.all Char.isDigit) :
    _verify_data_numeric s = pureZ := by
  unfold _verify_data_numeric
  rw [if_pos ⟨h1, h2⟩]

theorem afd_single (x : String) :
    add_field_data (.single x) false = .ok ["^FD" ++ x ++ "^FS", "\n"] () := rfl

theorem pyTake_of_length_le (s : String) (n : Nat) (h : s.length ≤ n) : pyTake s n = s := by
  unfold pyTake
  cases s with
  | mk data =>
    congr 1
    exact List.take_of_length_le h

theorem pyTake_length {s : String} {n : Nat} (h : n ≤ s.length) : (pyTake s n).length = n := by
  unfold pyTake
  show (s.toList.take n).length = n
  rw [List.length_take]
  have hd : s.toList.length = s.length := rfl
  omega

theorem pyZfill_of_le {s : String} {w : Nat} (h : w ≤ s.length) : pyZfill s w = s := by
  unfold pyZfill
  rw [if_pos h]

theorem pyZfill_of_lt {s : String} {w : Nat} (h : s.length < w) :
    pyZfill s w = String.mk (List.replicate (w - s.length) '0') ++ s := by
  unfold pyZfill
  rw [if_neg (by omega)]

theorem pyZfill_length_of_lt {s : String} {w : Nat} (h : s.length < w) :
    (pyZfill s w).length = w := by
  rw [pyZfill_of_lt h]
  rw [String.length_append]
  have h1 : (String.mk (List.replicate (w - s.length) '0')).length = w - s.length := by
    show (List.replicate (w - s.length) '0').length = w - s.length
    exact List.length_replicate _ _
  omega

/-- C5: add_field_data_ean_13 zero-pads a shorter all-digits payload on the
left to 12 digits, leaves a 12-digit payload unchanged, and truncates a
longer payload to its first 12 digits; add_field_data_upc_a does the same
with required length 11; in every case the call succeeds (padding and
truncation never raise). -/
theorem C5_fixed_length_pad_truncate :
    (∀ s : String, s ≠ "" → s.toList.all Char.isDigit → s.length < 12 →
      add_field_data_ean_13 s =
        .ok ["^FD" ++ (String.mk (List.replicate (12 - s.length) '0') ++ s) ++ "^FS", "\n"] ()) ∧
    (∀ s : String, s ≠ "" → s.toList.all Char.isDigit → s.length = 12 →
      add_field_data_ean_13 s = .ok ["^FD" ++ s ++ "^FS", "\n"] ()) ∧
    (∀ s : String, s ≠ "" → s.toList.all Char.isDigit → 12 < s.length →
      add_field_data_ean_13 s = .ok ["^FD" ++ pyTake s 12 ++ "^FS", "\n"] ()) ∧
    (∀ s : String, s ≠ "" → s.toList.all Char.isDigit → s.length < 11 →
      add_field_data_upc_a s =
        .ok ["^FD" ++ (String.mk (List.replicate (11 - s.length) '0') ++ s) ++ "^FS", "\n"] ()) ∧
    (∀ s : String, s ≠ "" → s.toList.all Char.isDigit → s.length = 11 →
      add_field_data_upc_a s = .ok ["^FD" ++ s ++ "^FS", "\n"] ()) ∧
    (∀ s : String, s ≠ "" → s.toList.all Char.isDigit → 11 < s.length →
      add_field_data_upc_a s = .ok ["^FD" ++ pyTake s 11 ++ "^FS", "\n"] ()) := by
  refine ⟨?_, ?_, ?_, ?_, ?_, ?_⟩
  · intro s h1 h2 h3
    unfold add_field_data_ean_13
    rw [verify_numeric_ok h1 h2, thenZ_pureZ_left, if_neg (by omega), pyZfill_of_lt h3]
    exact afd_single _
  · intro s h1 h2 h3
    unfold add_field_data_ean_13
    rw [verify_numeric_ok h1 h2, thenZ_pureZ_left, if_neg (by omega), pyZfill_of_le (by omega)]
    exact afd_single _
  · intro s h1 h2 h3
    unfold add_field_data_ean_13
    rw [verify_numeric_ok h1 h2, thenZ_pureZ_left, if_pos h3,
      pyZfill_of_le (pyTake_length (le_of_lt h3)).ge]
    exact afd_single _
  · intro s h1 h2 h3
    unfold add_field_data_upc_a
    rw [verify_numeric_ok h1 h2, thenZ_pureZ_left, if_pos h3,
      pyTake_of_length_le _ _ (pyZfill_length_of_lt h3).le, pyZfill_of_lt h3]
    exact afd_single _
  · intro s h1 h2 h3
    unfold add_field_data_upc_a
    rw [verify_numeric_ok h1 h2, thenZ_pureZ_left, if_neg (by omega),
      pyTake_of_length_le _ _ (by omega)]
    exact afd_single _
  · intro s h1 h2 h3
    unfold add_field_data_upc_a
    rw [verify_numeric_ok h1 h2, thenZ_pureZ_left, if_neg (by omega)]
    exact afd_single _

/-- Concrete instantiation of C5: payload 123 pads to 000000000123 for
EAN-13 and to 00000000123 for UPC-A; a 13-digit payload truncates to its
first 12 digits; none of the calls raise. -/
theorem C5_fixed_length_pad_truncate_witness :
    add_field_data_ean_13 "123" = .ok ["^FD000000000123^FS", "\n"] () ∧
    add_field_data_ean_13 "1234567890123" = .ok ["^FD123456789012^FS", "\n"] () ∧
    add_field_data_upc_a "123" = .ok ["^FD00000000123^FS", "\n"] () := by
  refine ⟨?_, ?_, ?_⟩
  · exact (C5_fixed_length_pad_truncate.1 "123" (by decide) (by decide)
      (by decide)).trans (by decide)
  · exact (C5_fixed_length_pad_truncate.2.2.1 "1234567890123" (by decide) (by decide)
      (by decide)).trans (by decide)
  · exact (C5_fixed_length_pad_truncate.2.2.2.1 "123" (by decide) (by decide)
      (by decide)).trans (by decide)

/-! ## C7 -/

/-- C7: add_field_data_msi raises when the payload is longer than 13 for
check-digit modes B, C or D, and longer than 14 for mode A or when no mode
is supplied; an all-digits payload within the applicable limit is accepted
and emitted as field data. -/
theorem C7_msi_mode_dependent_max_length :
    (∀ d : String, ∀ cd : Option String,
      (cd = some "B" ∨ cd = some "C" ∨ cd = some "D") → 13 < d.length →
      add_field_data_msi d cd =
        .err [] "msi barcode data has maximum len of 13 for check_digit B,C,D or 14 for check_digit A.") ∧
    (∀ d : String, ∀ cd : Option String, (cd = some "A" ∨ cd = none) → 14 < d.length →
      add_field_data_msi d cd =
        .err [] "msi barcode data has maximum len of 13 for check_digit B,C,D or 14 for check_digit A.") ∧
    (∀ d : String, ∀ cd : Option String, d ≠ "" → d.toList.all Char.isDigit →
      d.length ≤ (if cd = some "B" ∨ cd = some "C" ∨ cd = some "D" then 13 else 14) →
      add_field_data_msi d cd = .ok ["^FD" ++ d ++ "^FS", "\n"] ()) := by
  refine ⟨?_, ?_, ?_⟩
  · intro d cd hcd h
    unfold add_field_data_msi
    rw [if_pos hcd, if_pos h]
  · intro d cd hcd h
    have hnot : ¬(cd = some "B" ∨ cd = some "C" ∨ cd = some "D") := by
      rcases hcd with h' | h' <;> subst h' <;> simp
    unfold add_field_data_msi
    rw [if_neg hnot, if_pos h]
  · intro d cd h1 h2 hlen
    unfold add_field_data_msi
    rw [if_neg (not_lt.mpr hlen), verify_numeric_ok h1 h2, thenZ_pureZ_left]
    exact afd_single _

/-- Concrete instantiation of C7: a 14-digit payload is rejected under
mode B but accepted with no mode; a 15-digit payload is rejected with no
mode. -/
theorem C7_msi_mode_dependent_max_length_witness :
    add_field_data_msi "12345678901234" (some "B") =
      .err [] "msi barcode data has maximum len of 13 for check_digit B,C,D or 14 for check_digit A." ∧
    add_field_data_msi "123456789012345" none =
      .err [] "msi barcode data has maximum len of 13 for check_digit B,C,D or 14 for check_digit A." ∧
    add_field_data_msi "12345678901234" none = .ok ["^FD12345678901234^FS", "\n"] () := by
  refine ⟨?_, ?_, ?_⟩
  · exact C7_msi_mode_dependent_max_length.1 "12345678901234" (some "B")
      (Or.inl rfl) (by decide)
  · exact C7_msi_mode_dependent_max_length.2.1 "123456789012345" none
      (Or.inr rfl) (by decide)
  · exact (C7_msi_mode_dependent_max_length.2.2 "12345678901234" none (by decide)
      (by decide) (by decide)).trans (by decide)

/-! ## C8 -/

/-- C8: the enumerated check-digit set of add_barcode_msi contains the
malformed member C-comma: with an orientation supplied, the value C-comma
is accepted and emitted, while the clean value C is rejected with an error
listing the allowed values (and leaving the fragments appended so far in
the stream). -/
theorem C8_msi_malformed_check_digit_set :
    add_barcode_msi (some "N") (some "C,") none none none none =
      .ok ["^BM", "N", ",", "C,", "\n"] () ∧
    add_barcode_msi (some "N") (some "C") none none none none =
      .err ["^BM", "N"] ("check_digit must be in " ++ pyStrList ["A", "B", "C,", "D"]) ∧
    ("check_digit must be in " ++ pyStrList ["A", "B", "C,", "D"]) =
      "check_digit must be in [\x27A\x27, \x27B\x27, \x27C,\x27, \x27D\x27]" := by
  refine ⟨by decide, by decide, by decide⟩

/-! ## C9 -/

theorem join_append_one (l : List String) (s : String) :
    String.join (l ++ [s]) = String.join l ++ s := by
  unfold String.join
  rw [List.foldl_append]
  rfl

/-- C9: a document with zero commands renders as exactly the start
sentinel, one newline and the end sentinel; for every stream the byte
rendering is the UTF-8 encoding of the text rendering; and the end sentinel
appears only in the rendered output (it is appended at render time to a
fresh concatenation and is not a stored fragment of the fresh stream), so
rendering, a pure function of the stream, never mutates it and repeated
renderings agree. -/
theorem C9_render_round_trip :
    zpl_text initZpl = "^XA\n^XZ" ∧
    (∀ zpl : List String, zpl_bytes zpl = (zpl_text zpl).toUTF8) ∧
    (∀ zpl : List String, zpl_text zpl = String.join zpl ++ END) ∧
    END ∉ initZpl := by
  refine ⟨by decide, fun zpl => rfl, fun zpl => join_append_one zpl END, by decide⟩

/-! ## C10 -/

/-- C10: with all three parameters valid and supplied, add_barcode_default
emits the opcode BY, the module width, a comma, the ratio rounded to one
decimal, a comma, the module width a second time, a comma, and the height. -/
theorem C10_barcode_default_emits_module_width_twice :
    ∀ mw : Int, ∀ r : ℚ, ∀ h : Int,
      1 ≤ mw → mw ≤ 10 → (2 : ℚ) ≤ r → r ≤ (3 : ℚ) → 1 ≤ h → h ≤ 200 →
      add_barcode_default (some mw) (some r) (some h) =
        .ok ["^BY", intStr mw, ",", decStr1 r, ",", intStr mw, ",", intStr h, "\n"] () := by
  intro mw r h h1 h2 h3 h4 h5 h6
  have h3' : ((2 : Int) : ℚ) ≤ r := by exact_mod_cast h3
  have h4' : r ≤ ((3 : Int) : ℚ) := by exact_mod_cast h4
  simp [add_barcode_default, _newline_after, range_ok "module_width" false h1 h2,
    range_ok "module_width" true h1 h2, decimal_ok "wide_narrow_ratio" true h3' h4',
    range_ok "height" true h5 h6, thenZ, ZRes.bind, ZRes.prepend, pureZ, emitZ]

/-- Concrete instantiation of C10: module width 2, ratio 5/2, height 10
emit BY 2,2.5,2,10. -/
theorem C10_barcode_default_emits_module_width_twice_witness :
    add_barcode_default (some 2) (some (5 / 2 : ℚ)) (some 10) =
      .ok ["^BY", "2", ",", "2.5", ",", "2", ",", "10", "\n"] () := by
  have h := C10_barcode_default_emits_module_width_twice 2 (5 / 2 : ℚ) 10
    (by decide) (by decide) (by norm_num) (by norm_num) (by decide) (by decide)
  refine h.trans ?_
  norm_num [decStr1, roundHalfEven, intStr, natStr]
  decide

/-! ## C4 -/

theorem thenZ_emit_err {m : ZRes Unit} {s : String} {l : List String} {e : String}
    (h : thenZ m (emitZ s) = .err l e) : m = .err l e := by
  cases m with
  | ok l1 u =>
    cases u
    exact absurd h (by simp [thenZ, ZRes.bind, ZRes.prepend, emitZ])
  | err l1 e1 =>
    rw [thenZ_err] at h
    exact h

set_option maxRecDepth 8000 in
/-- C4, evaluated on the code: a non-6-digit eci_number raises; a list
additional-data block of exactly 25 characters is rejected (the source
checks len greater-or-equal 25 although its own error message says blocks
are limited to 25 characters); an aggregate of six 24-character blocks,
each passing the per-block check, raises the 139-character aggregate
error; and every raising run of add_field_data_tlc39 appends nothing to
the stream. -/
theorem C4_tlc39_composite_bounds :
    (∀ eci : String, ∀ sn : Option String, ∀ ad : Option FieldPayload,
      ¬(eci.length = 6 ∧ eci.toList.all Char.isDigit) →
      add_field_data_tlc39 eci sn ad = .err [] "eci_number must be exactly 6 digital") ∧
    add_field_data_tlc39 "123456" (some "A")
        (some (.multi ["AAAAAAAAAAAAAAAAAAAAAAAAA"])) =
      .err [] "additional_data blocks are limited to 25 characters." ∧
    ("AAAAAAAAAAAAAAAAAAAAAAAAA" : String).length = 25 ∧
    add_field_data_tlc39 "123456" (some "A")
        (some (.multi ["AAAAAAAAAAAAAAAAAAAAAAAA", "AAAAAAAAAAAAAAAAAAAAAAAA",
          "AAAAAAAAAAAAAAAAAAAAAAAA", "AAAAAAAAAAAAAAAAAAAAAAAA",
          "AAAAAAAAAAAAAAAAAAAAAAAA", "AAAAAAAAAAAAAAAAAAAAAAAA"])) =
      .err []
        "additional_data is limited to 139 characters after joining with commas.Data sent length is 149" ∧
    (∀ eci : String, ∀ sn : Option String, ∀ ad : Option FieldPayload,
      ∀ l : List String, ∀ e : String,
      add_field_data_tlc39 eci sn ad = .err l e → l = []) := by
  refine ⟨?_, by decide, by decide, by decide, ?_⟩
  · intro eci sn ad h
    unfold add_field_data_tlc39 _newline_after
    rw [if_pos h]
    rfl
  · intro eci sn ad l e h
    unfold add_field_data_tlc39 _newline_after at h
    have h' := thenZ_emit_err h
    unfold tlc39_joined at h'
    repeat' split at h'
    all_goals first
      | (rw [afd_single] at h'; exact ZRes.noConfusion h')
      | (injection h' with h1 h2; exact h1.symm)

/-- Concrete instantiation of C4 with the eci hypothesis discharged. -/
theorem C4_tlc39_composite_bounds_witness :
    add_field_data_tlc39 "12345" none none =
      .err [] "eci_number must be exactly 6 digital" :=
  C4_tlc39_composite_bounds.1 "12345" none none (by decide)

/-! ## C6 -/

/-- C6, evaluated on the code: a list payload with replace_newlines false
is joined with the end-of-field marker into one field-data fragment; a
single-string payload with replace_newlines true has its newlines replaced
by the escape; but every list payload with replace_newlines true raises
AttributeError (the source calls str.replace on the list itself), so the
substitution never happens for multi-segment payloads — shown concretely at
the failing input consisting of the segments a-newline-b and c. -/
theorem C6_field_data_multi_replace_newlines :
    (∀ l : List String, add_field_data (.multi l) false =
      .ok ["^FD" ++ String.intercalate "^FS" l ++ "^FS", "\n"] ()) ∧
    (∀ s : String, add_field_data (.single s) true =
      .ok ["^FD" ++ s.replace "\n" "\\&" ++ "^FS", "\n"] ()) ∧
    (∀ l : List String, add_field_data (.multi l) true =
      .err [] "AttributeError: \x27list\x27 object has no attribute \x27replace\x27") ∧
    add_field_data (.multi ["a\nb", "c"]) true =
      .err [] "AttributeError: \x27list\x27 object has no attribute \x27replace\x27" :=
  ⟨fun l => rfl, fun s => rfl, fun l => rfl, rfl⟩

/-! ## C2 -/

/-- C2 counterexample: add_field_data_tlc39 is a top-level command-building
method carrying the _newline_after decorator, yet this successful call
appends two newline fragments, not exactly one, because its body also calls
the decorated add_field_data. -/
theorem C2_counterexample_tlc39_two_newlines :
    add_field_data_tlc39 "123456" none none = .ok ["^FD123456^FS", "\n", "\n"] () ∧
    newlineCount ["^FD123456^FS", "\n", "\n"] = 2 :=
  ⟨by decide, by decide⟩

/-- C2 amended: every public top-level command-building method appends
exactly one newline fragment on every run that returns without raising —
counting fragments equal to the newline string, whence the three
free-text parameters that are emitted verbatim (font name, Aztec structured
id, Data Matrix escape character) are assumed not to be the newline string
itself — except add_field_data_tlc39, which appends exactly two (one from
its own decorator and one from the nested decorated add_field_data call). -/
theorem C2_one_newline_per_command_except_tlc39 :
    (∀ fn o ch w, fn ≠ "\n" → NlCnt 1 (add_font fn o ch w)) ∧
    (∀ x y, NlCnt 1 (add_label_home x y)) ∧
    (∀ x y j, NlCnt 1 (add_field_origin x y j)) ∧
    (∀ w ml dbl tj hi, NlCnt 1 (add_field_block w ml dbl tj hi)) ∧
    (∀ q p r ov ce, NlCnt 1 (add_print_quantity q p r ov ce)) ∧
    (∀ p rn, NlCnt 1 (add_field_data p rn)) ∧
    (∀ o m e ec ms ns sia, sia ≠ some "\n" →
      NlCnt 1 (add_barcode_aztec o m e ec ms ns sia)) ∧
    (∀ d, NlCnt 1 (add_field_data_code_11 d)) ∧
    (∀ o cd h pt ta, NlCnt 1 (add_barcode_code_11 o cd h pt ta)) ∧
    (∀ d, NlCnt 1 (add_field_data_interleaved_2_of_5 d)) ∧
    (∀ o h pt ta cd, NlCnt 1 (add_barcode_interleaved_2_of_5 o h pt ta cd)) ∧
    (∀ d ea, NlCnt 1 (add_field_data_code_39 d ea)) ∧
    (∀ o cd h pt ta, NlCnt 1 (add_barcode_code_39 o cd h pt ta)) ∧
    (∀ o hm pt ta sm, NlCnt 1 (add_barcode_code_49 o hm pt ta sm)) ∧
    (∀ d, NlCnt 1 (add_field_data_planet_code d)) ∧
    (∀ o h pt ta, NlCnt 1 (add_barcode_planet_code o h pt ta)) ∧
    (∀ o h sl dcc rc t, NlCnt 1 (add_barcode_pdf417 o h sl dcc rc t)) ∧
    (∀ d, NlCnt 1 (add_field_data_ean_8 d)) ∧
    (∀ o h pt ta, NlCnt 1 (add_barcode_ean_8 o h pt ta)) ∧
    (∀ d, NlCnt 1 (add_field_data_upc_e d)) ∧
    (∀ o h pt ta cd, NlCnt 1 (add_barcode_upc_e o h pt ta cd)) ∧
    (∀ d ea, NlCnt 1 (add_field_data_code_93 d ea)) ∧
    (∀ o h pt ta cd, NlCnt 1 (add_barcode_code_93 o h pt ta cd)) ∧
    (∀ o h sl cpr rc mode, NlCnt 1 (add_barcode_codablock o h sl cpr rc mode)) ∧
    (∀ o h pt ta cd, NlCnt 1 (add_barcode_code_128 o h pt ta cd)) ∧
    (∀ m sn sc, NlCnt 1 (add_barcode_ups_maxicode m sn sc)) ∧
    (∀ d, NlCnt 1 (add_field_data_ean_13 d)) ∧
    (∀ o h pt ta, NlCnt 1 (add_barcode_ean_13 o h pt ta)) ∧
    (∀ o h m, NlCnt 1 (add_barcode_micropdf_417 o h m)) ∧
    (∀ d, NlCnt 1 (add_field_data_industrial_2_of_5 d)) ∧
    (∀ o h pt ta, NlCnt 1 (add_barcode_industrial_2_of_5 o h pt ta)) ∧
    (∀ d, NlCnt 1 (add_field_data_standard_2_of_5 d)) ∧
    (∀ o h pt ta, NlCnt 1 (add_barcode_standard_2_of_5 o h pt ta)) ∧
    (∀ d sc tc, NlCnt 1 (add_field_data_ansi_codabar d sc tc)) ∧
    (∀ o h pt ta sc tc, NlCnt 1 (add_barcode_ansi_codabar o h pt ta sc tc)) ∧
    (∀ d, NlCnt 1 (add_field_data_logmars d)) ∧
    (∀ o h ta, NlCnt 1 (add_barcode_logmars o h ta)) ∧
    (∀ d cd, NlCnt 1 (add_field_data_msi d cd)) ∧
    (∀ o cd h pt ta icd, NlCnt 1 (add_barcode_msi o cd h pt ta icd)) ∧
    (∀ d, NlCnt 1 (add_field_data_plessey d)) ∧
    (∀ o cd h pt ta, NlCnt 1 (add_barcode_plessey o cd h pt ta)) ∧
    (∀ m mg ecc mv, NlCnt 1 (add_barcode_qr m mg ecc mv)) ∧
    (∀ o st mg sh h w, NlCnt 1 (add_barcode_gs1_batabar o st mg sh h w)) ∧
    (∀ d, NlCnt 1 (add_field_data_upc_ean_extensions d)) ∧
    (∀ o h pt ta, NlCnt 1 (add_barcode_upc_ean_extensions o h pt ta)) ∧
    (∀ eci sn ad, NlCnt 2 (add_field_data_tlc39 eci sn ad)) ∧
    (∀ o w r h mh mw, NlCnt 1 (add_barcode_tlc39 o w r h mh mw)) ∧
    (∀ d, NlCnt 1 (add_field_data_upc_a d)) ∧
    (∀ o h pt ta cd, NlCnt 1 (add_barcode_upc_a o h pt ta cd)) ∧
    (∀ o h q c r fid es ar, es ≠ some "\n" →
      NlCnt 1 (add_barcode_data_matrix o h q c r fid es ar)) ∧
    (∀ d, NlCnt 1 (add_field_data_postal d)) ∧
    (∀ o h pt ta ct, NlCnt 1 (add_barcode_postal o h pt ta ct)) ∧
    (∀ mw r h, NlCnt 1 (add_barcode_default mw r h)) ∧
    (∀ ct, NlCnt 1 (add_comment ct)) ∧
    (∀ w h b lc cr, NlCnt 1 (add_graphic_box w h b lc cr)) ∧
    (∀ d b c, NlCnt 1 (add_graphic_circle d b c)) :=
  ⟨nl_add_font, nl_add_label_home, nl_add_field_origin, nl_add_field_block,
    nl_add_print_quantity, nl_add_field_data, nl_add_barcode_aztec,
    nl_add_field_data_code_11, nl_add_barcode_code_11,
    nl_add_field_data_interleaved_2_of_5, nl_add_barcode_interleaved_2_of_5,
    nl_add_field_data_code_39, nl_add_barcode_code_39, nl_add_barcode_code_49,
    nl_add_field_data_planet_code, nl_add_barcode_planet_code, nl_add_barcode_pdf417,
    nl_add_field_data_ean_8, nl_add_barcode_ean_8, nl_add_field_data_upc_e,
    nl_add_barcode_upc_e, nl_add_field_data_code_93, nl_add_barcode_code_93,
    nl_add_barcode_codablock, nl_add_barcode_code_128, nl_add_barcode_ups_maxicode,
    nl_add_field_data_ean_13, nl_add_barcode_ean_13, nl_add_barcode_micropdf_417,
    nl_add_field_data_industrial_2_of_5, nl_add_barcode_industrial_2_of_5,
    nl_add_field_data_standard_2_of_5, nl_add_barcode_standard_2_of_5,
    nl_add_field_data_ansi_codabar, nl_add_barcode_ansi_codabar,
    nl_add_field_data_logmars, nl_add_barcode_logmars, nl_add_field_data_msi,
    nl_add_barcode_msi, nl_add_field_data_plessey, nl_add_barcode_plessey,
    nl_add_barcode_qr, nl_add_barcode_gs1_batabar, nl_add_field_data_upc_ean_extensions,
    nl_add_barcode_upc_ean_extensions, nl_add_field_data_tlc39, nl_add_barcode_tlc39,
    nl_add_field_data_upc_a, nl_add_barcode_upc_a, nl_add_barcode_data_matrix,
    nl_add_field_data_postal, nl_add_barcode_postal, nl_add_barcode_default,
    nl_add_comment, nl_add_graphic_box, nl_add_graphic_circle⟩

/-- Concrete instantiation of C2 with its free-text hypotheses discharged. -/
theorem C2_one_newline_per_command_except_tlc39_witness :
    NlCnt 1 (add_font "A" (some "N") none none) ∧
    NlCnt 1 (add_barcode_aztec (some "N") none none none none none (some "id")) :=
  ⟨C2_one_newline_per_command_except_tlc39.1 "A" (some "N") none none (by decide),
    C2_one_newline_per_command_except_tlc39.2.2.2.2.2.2.1 (some "N") none none none none
      none (some "id") (by decide)⟩
